import Mathlib

/-!
# ecs-deployer: a verification development of `main.go`

The program parses its flags, looks up the first named service (the exemplar)
on the cluster, fetches the task definition of that service, overwrites the
image of the first container, registers the result as a new revision and points
every named service at the new revision.

Embedding.  A run of the program is the pure function `main args svc`: `args`
are the command-line arguments after the program name, the four ECS operations
are the fields of `svc : ControlPlane`, and the result is the list of
control-plane calls issued (with the answer each one got) together with the
way the process ended.

* Line 49, `flag.Parse()`, is `flagParse`, a model of `FlagSet.Parse` and
  `parseOne` of the Go package `flag` (Go 1.15 and later) for the six flags the
  program defines; lines 51-157 are `mainAfterParse`, a function of the flag
  variables.
* The documents exchanged with the control plane are values: a list member
  that is `null` on the wire is `none`.  What the SDK hands to the program is
  a pointer structure.  Go pointers to scalars (`*string`, `*int64`, `*bool`)
  and to response structs are `Option`, `none` being `nil`.  The members of
  `[]*ecs.ContainerDefinition` are pointers into a heap of container
  definitions (`Heap`); `unmarshal` allocates one cell per member that is not
  `null`, and the store of line 112 is a write to a heap cell.
* Dereferencing `nil` and indexing an empty slice end the run in
  `Outcome.panic`.
* Text written to standard output is not modelled; each call site of `fail` is
  a constructor of `Failure`.
-/

namespace EcsDeployer

/-! ## Flags (main.go lines 14-37) -/

/-- The type `arrayFlag` (line 14): a slice of strings. -/
abbrev arrayFlag := List String

/-- The method `Set` (lines 20-23): append the value. It never returns an error. -/
def arrayFlag.Set (flags : arrayFlag) (value : String) : arrayFlag :=
  flags ++ [value]

/-- The method `Specified` (lines 25-27): `len(*flags) > 0`. -/
def arrayFlag.Specified (flags : arrayFlag) : Bool :=
  decide (flags.length > 0)

/-- The package-level flag variables (lines 29-37). -/
structure Flags where
  clusterName : String
  repoName : String
  sha : String
  region : String
  debug : Bool
  apps : arrayFlag
  deriving DecidableEq, Repr

/-- The default values given at lines 30-37: only `-s` has a non-empty default. -/
def Flags.defaults : Flags :=
  { clusterName := "", repoName := "", sha := "latest", region := "", debug := false, apps := [] }

/-! ## Line 49: `flag.Parse()` -/

/-- How `flag.Parse()` ends: it returns with the flag variables set, or it
exits the process, with status 0 after `-h` or `-help` and with status 2 after
an argument error. -/
inductive ParseResult where
  | parsed (flags : Flags)
  | help
  | failed
  deriving DecidableEq, Repr

/-- The function `strconv.ParseBool`, which reads the value of the boolean flag `-d`. -/
def parseBool (value : String) : Option Bool :=
  if value ∈ ["1", "t", "T", "TRUE", "true", "True"] then some true
  else if value ∈ ["0", "f", "F", "FALSE", "false", "False"] then some false
  else none

/-- What `parseOne` makes of one argument before it looks the name up. -/
inductive Argument where
  /-- Shorter than two bytes or not starting with a minus: parsing stops. -/
  | nonFlag
  /-- The argument `--`: parsing stops. -/
  | terminator
  /-- An empty name, or a name starting with a minus or an equals sign. -/
  | badSyntax
  /-- A flag name, with its value when the argument holds an equals sign. -/
  | flag (name : String) (value : Option String)
  deriving DecidableEq, Repr

/-- The split of `name` at its first equals sign, which is not its first character. -/
def splitValue (name : List Char) : String × Option String :=
  match name with
  | [] => ("", none)
  | first :: more =>
    match more.dropWhile (fun c => c != '=') with
    | [] => (String.mk (first :: more), none)
    | _ :: value => (String.mk (first :: more.takeWhile (fun c => c != '=')),
        some (String.mk value))

/-- The first half of `parseOne`: one or two minus signs, then the name, then
possibly an equals sign and the value. -/
def classify (s : String) : Argument :=
  match s.toList with
  | [] => Argument.nonFlag
  | [_] => Argument.nonFlag
  | c0 :: c1 :: cs =>
    if c0 ≠ '-' then Argument.nonFlag
    else if c1 = '-' ∧ cs = [] then Argument.terminator
    else
      match (if c1 = '-' then cs else c1 :: cs) with
      | [] => Argument.badSyntax
      | n0 :: name =>
        if n0 = '-' ∨ n0 = '=' then Argument.badSyntax
        else Argument.flag (splitValue (n0 :: name)).1 (splitValue (n0 :: name)).2

/-- The method `Value.Set` of the five flags that take a value: the four string
flags overwrite their variable, `-a` appends with `arrayFlag.Set`. -/
def setValue (flags : Flags) (name value : String) : Flags :=
  if name = "c" then { flags with clusterName := value }
  else if name = "i" then { flags with repoName := value }
  else if name = "s" then { flags with sha := value }
  else if name = "r" then { flags with region := value }
  else if name = "a" then { flags with apps := arrayFlag.Set flags.apps value }
  else flags

/-- The loop of `FlagSet.Parse` over the remaining arguments. `pending` is the
name of a flag whose value is the next argument, whatever it looks like. -/
def parseFrom (flags : Flags) (pending : Option String) : List String → ParseResult
  | [] =>
    match pending with
    | some _ => ParseResult.failed
    | none => ParseResult.parsed flags
  | s :: rest =>
    match pending with
    | some name => parseFrom (setValue flags name s) none rest
    | none =>
      match classify s with
      | Argument.nonFlag => ParseResult.parsed flags
      | Argument.terminator => ParseResult.parsed flags
      | Argument.badSyntax => ParseResult.failed
      | Argument.flag name value =>
        if name = "d" then
          match value with
          | none => parseFrom { flags with debug := true } none rest
          | some v =>
            match parseBool v with
            | some b => parseFrom { flags with debug := b } none rest
            | none => ParseResult.failed
        else if name ∈ ["c", "i", "s", "r", "a"] then
          match value with
          | some v => parseFrom (setValue flags name v) none rest
          | none => parseFrom flags (some name) rest
        else if name = "help" ∨ name = "h" then ParseResult.help
        else ParseResult.failed

/-- Line 49: `flag.Parse()` on the arguments after the program name. -/
def flagParse (args : List String) : ParseResult :=
  parseFrom Flags.defaults none args

/-! ## The ECS types the program touches (package `ecs` of aws-sdk-go) -/

/-- One `ecs.KeyValuePair` of the environment of a container. -/
structure KeyValuePair where
  name : Option String
  value : Option String
  deriving DecidableEq, Repr

/-- The `ecs.ContainerDefinition` struct: `image` is the one field the program
writes, the others stand for the fields it never touches. -/
structure ContainerDefinition where
  name : Option String
  image : Option String
  cpu : Option Int
  memory : Option Int
  essential : Option Bool
  command : List String
  environment : List KeyValuePair
  deriving DecidableEq, Repr

/-- The `ecs.Volume` struct. -/
structure Volume where
  name : Option String
  hostSourcePath : Option String
  deriving DecidableEq, Repr

/-- The `ecs.TaskDefinition` struct, with `κ` for a member of
`ContainerDefinitions`. -/
structure TaskDefinitionOf (κ : Type) where
  taskDefinitionArn : Option String
  containerDefinitions : List κ
  family : Option String
  revision : Option Int
  status : Option String
  volumes : List Volume
  networkMode : Option String
  taskRoleArn : Option String
  cpu : Option String
  memory : Option String
  requiresCompatibilities : List String
  executionRoleArn : Option String
  placementConstraints : List String
  deriving DecidableEq, Repr

/-- A task definition as a document: the members are container definitions, or
`none` for a `null` member. -/
abbrev TaskDefinition := TaskDefinitionOf (Option ContainerDefinition)

/-- The `ecs.Service` struct. -/
structure Service where
  serviceName : Option String
  clusterArn : Option String
  taskDefinition : Option String
  desiredCount : Option Int
  deriving DecidableEq, Repr

/-- The `ecs.DescribeServicesInput` struct. -/
structure DescribeServicesInput where
  cluster : Option String
  services : List String
  deriving DecidableEq, Repr

/-- The `ecs.DescribeServicesOutput` struct; a member of `Services` is a
pointer, `none` when it is `nil`. -/
structure DescribeServicesOutput where
  services : List (Option Service)
  deriving DecidableEq, Repr

/-- The `ecs.DescribeTaskDefinitionInput` struct. -/
structure DescribeTaskDefinitionInput where
  taskDefinition : Option String
  deriving DecidableEq, Repr

/-- The `ecs.DescribeTaskDefinitionOutput` struct. -/
structure DescribeTaskDefinitionOutputOf (κ : Type) where
  taskDefinition : Option (TaskDefinitionOf κ)
  deriving DecidableEq, Repr

/-- The answer to `DescribeTaskDefinition` as a document. -/
abbrev DescribeTaskDefinitionOutput := DescribeTaskDefinitionOutputOf (Option ContainerDefinition)

/-- The `ecs.RegisterTaskDefinitionInput` struct. -/
structure RegisterTaskDefinitionInputOf (κ : Type) where
  containerDefinitions : List κ
  family : Option String
  volumes : List Volume
  networkMode : Option String
  taskRoleArn : Option String
  cpu : Option String
  memory : Option String
  requiresCompatibilities : List String
  executionRoleArn : Option String
  placementConstraints : List String
  deriving DecidableEq, Repr

/-- The input of `RegisterTaskDefinition` as a document. -/
abbrev RegisterTaskDefinitionInput := RegisterTaskDefinitionInputOf (Option ContainerDefinition)

/-- The `ecs.RegisterTaskDefinitionOutput` struct. -/
structure RegisterTaskDefinitionOutput where
  taskDefinition : Option TaskDefinition
  deriving DecidableEq, Repr

/-- The `ecs.UpdateServiceInput` struct. -/
structure UpdateServiceInput where
  cluster : Option String
  service : Option String
  desiredCount : Option Int
  taskDefinition : Option String
  deriving DecidableEq, Repr

/-- The answer of a control-plane operation: the output, or the text of the
non-nil `err`. -/
inductive Reply (α : Type) where
  | ok (output : α)
  | error (err : String)
  deriving DecidableEq, Repr

/-- The client `svc` (line 70) as a black box on documents. `UpdateService` is
the only operation called more than once in a run; its first argument is the
number of `UpdateService` calls already made, so that the answer may differ
from call to call. -/
structure ControlPlane where
  DescribeServices : DescribeServicesInput → Reply DescribeServicesOutput
  DescribeTaskDefinition : DescribeTaskDefinitionInput → Reply DescribeTaskDefinitionOutput
  RegisterTaskDefinition : RegisterTaskDefinitionInput → Reply RegisterTaskDefinitionOutput
  UpdateService : Nat → UpdateServiceInput → Reply Unit

/-! ## The memory of the program -/

/-- The container definitions allocated so far; an address is an index. -/
abbrev Heap := List ContainerDefinition

/-- A `*ecs.ContainerDefinition`: `none` is `nil`, `some a` points to cell `a`. -/
abbrev Pointer := Option Nat

/-- The task definition the program holds: its containers are pointers. -/
abbrev TaskDefinitionRef := TaskDefinitionOf Pointer

/-- The variable `taskDesc` (line 98). -/
abbrev DescribeTaskDefinitionOutputRef := DescribeTaskDefinitionOutputOf Pointer

/-- The variable `futureDef` (line 114). -/
abbrev RegisterTaskDefinitionInputRef := RegisterTaskDefinitionInputOf Pointer

/-- The same task definition with another list of containers. -/
def TaskDefinitionOf.withContainers {κ κ' : Type} (td : TaskDefinitionOf κ)
    (containers : List κ') : TaskDefinitionOf κ' :=
  { taskDefinitionArn := td.taskDefinitionArn
    containerDefinitions := containers
    family := td.family
    revision := td.revision
    status := td.status
    volumes := td.volumes
    networkMode := td.networkMode
    taskRoleArn := td.taskRoleArn
    cpu := td.cpu
    memory := td.memory
    requiresCompatibilities := td.requiresCompatibilities
    executionRoleArn := td.executionRoleArn
    placementConstraints := td.placementConstraints }

/-- The same input with another list of containers. -/
def RegisterTaskDefinitionInputOf.withContainers {κ κ' : Type}
    (input : RegisterTaskDefinitionInputOf κ) (containers : List κ') :
    RegisterTaskDefinitionInputOf κ' :=
  { containerDefinitions := containers
    family := input.family
    volumes := input.volumes
    networkMode := input.networkMode
    taskRoleArn := input.taskRoleArn
    cpu := input.cpu
    memory := input.memory
    requiresCompatibilities := input.requiresCompatibilities
    executionRoleArn := input.executionRoleArn
    placementConstraints := input.placementConstraints }

/-- The decoder of the SDK on a list of containers: every member that is not
`null` gets a fresh cell at the end of the heap, a `null` member becomes `nil`. -/
def allocate : List (Option ContainerDefinition) → Heap → Heap × List Pointer
  | [], heap => (heap, [])
  | none :: rest, heap =>
    ((allocate rest heap).1, none :: (allocate rest heap).2)
  | some container :: rest, heap =>
    ((allocate rest (heap ++ [container])).1,
      some heap.length :: (allocate rest (heap ++ [container])).2)

/-- The decoder of the SDK on the answer to `DescribeTaskDefinition`: the heap
holds no container definition before. -/
def unmarshal (document : DescribeTaskDefinitionOutput) : Heap × DescribeTaskDefinitionOutputRef :=
  match document.taskDefinition with
  | none => ([], { taskDefinition := none })
  | some td =>
    ((allocate td.containerDefinitions []).1,
      { taskDefinition := some (td.withContainers (allocate td.containerDefinitions []).2) })

/-- The container a pointer leads to. -/
def deref (heap : Heap) (p : Pointer) : Option ContainerDefinition :=
  p.bind (fun a => heap[a]?)

/-- The document a task definition in memory stands for. -/
def loadTaskDefinition (heap : Heap) (td : TaskDefinitionRef) : TaskDefinition :=
  td.withContainers (td.containerDefinitions.map (deref heap))

/-- The document `taskDesc` stands for. -/
def loadOutput (heap : Heap) (taskDesc : DescribeTaskDefinitionOutputRef) :
    DescribeTaskDefinitionOutput :=
  { taskDefinition := taskDesc.taskDefinition.map (loadTaskDefinition heap) }

/-- The document sent for an input in memory. -/
def loadInput (heap : Heap) (input : RegisterTaskDefinitionInputRef) :
    RegisterTaskDefinitionInput :=
  input.withContainers (input.containerDefinitions.map (deref heap))

/-! ## Runs -/

/-- One control-plane call issued by the run, with the answer it got. -/
inductive Call where
  | describeServices (input : DescribeServicesInput) (reply : Reply DescribeServicesOutput)
  | describeTaskDefinition (input : DescribeTaskDefinitionInput)
      (reply : Reply DescribeTaskDefinitionOutput)
  | registerTaskDefinition (input : RegisterTaskDefinitionInput)
      (reply : Reply RegisterTaskDefinitionOutput)
  | updateService (input : UpdateServiceInput) (reply : Reply Unit)
  deriving DecidableEq, Repr

/-- The call sites of `fail` in `main`, by line. -/
inductive Failure where
  /-- Line 53: "missing parameters". -/
  | missingParameters
  /-- Line 58: "no repo name, sha or target image specified". -/
  | noRepoOrSha
  /-- Line 82: "Failed to describe". -/
  | describeServices (err : String)
  /-- Line 87: "No service ... found on cluster ...". -/
  | noServiceFound
  /-- Line 93: "Found the wrong service". -/
  | wrongService
  /-- Line 103: the task definition could not be described. -/
  | describeTaskDefinition (err : String)
  /-- Line 132: the new task definition could not be registered. -/
  | registerTaskDefinition (err : String)
  /-- Line 151: the service `appName` could not be updated. -/
  | updateService (appName : String) (err : String)
  deriving DecidableEq, Repr

/-- The run-time panics `main` can raise, with the line that raises them. -/
inductive Panic where
  | indexOutOfRange (line : Nat)
  | nilDereference (line : Nat)
  deriving DecidableEq, Repr

/-- How the process ends. -/
inductive Outcome where
  /-- The function `main` returns. -/
  | returned
  /-- A call of `os.Exit(code)` in `fail`. -/
  | exit (code : Nat) (site : Failure)
  /-- An unrecovered run-time panic. -/
  | panic (p : Panic)
  /-- A call of `os.Exit(code)` inside `flag.Parse()`. -/
  | exitInParse (code : Nat)
  deriving DecidableEq, Repr

/-- The function `fail` (lines 39-42): print the message, then `os.Exit(2)`. -/
def fail (site : Failure) : Outcome :=
  Outcome.exit 2 site

/-- The exit status of the process: 0 when `main` returns, the argument of
`os.Exit`, and 2 when the Go runtime ends the process on a panic. -/
def Outcome.exitCode : Outcome → Nat
  | Outcome.returned => 0
  | Outcome.exit code _ => code
  | Outcome.panic _ => 2
  | Outcome.exitInParse code => code

/-- The calls issued by a run and the way it ended. -/
structure Run where
  trace : List Call
  outcome : Outcome
  deriving DecidableEq, Repr

/-! ## The body of `main` -/

/-- Lines 110-112. `containerDef` is the pointer stored at index 0 of
`taskDesc.TaskDefinition.ContainerDefinitions`; the store
`containerDef.Image = &imageName` writes to the cell it points to, and the
result is the heap after line 112. Line 111 panics when
`taskDesc.TaskDefinition` is nil or the slice is empty, line 112 when
`containerDef` is nil. -/
def setImage (heap : Heap) (taskDesc : DescribeTaskDefinitionOutputRef) (imageName : String) :
    Except Panic Heap :=
  match taskDesc.taskDefinition with
  | none => Except.error (Panic.nilDereference 111)
  | some td =>
    match td.containerDefinitions with
    | [] => Except.error (Panic.indexOutOfRange 111)
    | none :: _ => Except.error (Panic.nilDereference 112)
    | some containerDef :: _ =>
      match heap[containerDef]? with
      | none => Except.ok heap
      | some cell => Except.ok (heap.set containerDef { cell with image := some imageName })

/-- Lines 114-124: the literal `futureDef`. Its `ContainerDefinitions` is the
slice of the task definition it is built from, with the same members.
`PlacementConstraints` is not named in the literal and stays empty. -/
def futureDef {κ : Type} (td : TaskDefinitionOf κ) : RegisterTaskDefinitionInputOf κ :=
  { containerDefinitions := td.containerDefinitions
    family := td.family
    volumes := td.volumes
    networkMode := td.networkMode
    taskRoleArn := td.taskRoleArn
    cpu := td.cpu
    memory := td.memory
    requiresCompatibilities := td.requiresCompatibilities
    executionRoleArn := td.executionRoleArn
    placementConstraints := [] }

/-- Lines 144-149: the literal passed to `UpdateService` for `appName`. -/
def updateInput (clusterName : String) (service : Service) (newArn : String)
    (appName : String) : UpdateServiceInput :=
  { cluster := some clusterName
    service := some appName
    desiredCount := service.desiredCount
    taskDefinition := some newArn }

/-- Lines 140-155: the loop over `apps`. `done` is the number of `UpdateService`
calls already made. The loop stops at the first error with `fail`; when the
range is exhausted `main` returns. -/
def updateServices (svc : ControlPlane) (clusterName : String) (service : Service)
    (newArn : String) : List String → Nat → Run
  | [], _ => { trace := [], outcome := Outcome.returned }
  | appName :: rest, done =>
    let input := updateInput clusterName service newArn appName
    match svc.UpdateService done input with
    | Reply.error err =>
      { trace := [Call.updateService input (Reply.error err)]
        outcome := fail (Failure.updateService appName err) }
    | Reply.ok u =>
      let next := updateServices svc clusterName service newArn rest (done + 1)
      { trace := Call.updateService input (Reply.ok u) :: next.trace
        outcome := next.outcome }

/-- Lines 130-155: register `futureDef`, then run the loop. `input` is the
document `futureDef` stands for when the call is made. -/
def registerAndUpdate (flags : Flags) (svc : ControlPlane) (service : Service)
    (input : RegisterTaskDefinitionInput) : Run :=
  match svc.RegisterTaskDefinition input with
  | Reply.error err =>
    { trace := [Call.registerTaskDefinition input (Reply.error err)]
      outcome := fail (Failure.registerTaskDefinition err) }
  | Reply.ok registerRes =>
    let call := Call.registerTaskDefinition input (Reply.ok registerRes)
    match registerRes.taskDefinition with
    | none => { trace := [call], outcome := Outcome.panic (Panic.nilDereference 135) }
    | some registered =>
      match registered.taskDefinitionArn with
      | none => { trace := [call], outcome := Outcome.panic (Panic.nilDereference 137) }
      | some newArn =>
        let loop := updateServices svc flags.clusterName service newArn flags.apps 0
        { trace := call :: loop.trace, outcome := loop.outcome }

/-- Lines 98-155: fetch the task definition of `service`, set the image, go on
with the registration. -/
def fetchAndDeploy (flags : Flags) (svc : ControlPlane) (service : Service) : Run :=
  let input : DescribeTaskDefinitionInput := { taskDefinition := service.taskDefinition }
  match svc.DescribeTaskDefinition input with
  | Reply.error err =>
    { trace := [Call.describeTaskDefinition input (Reply.error err)]
      outcome := fail (Failure.describeTaskDefinition err) }
  | Reply.ok document =>
    let call := Call.describeTaskDefinition input (Reply.ok document)
    let heap := (unmarshal document).1
    let taskDesc := (unmarshal document).2
    let imageName := flags.repoName ++ ":" ++ flags.sha
    match setImage heap taskDesc imageName with
    | Except.error p => { trace := [call], outcome := Outcome.panic p }
    | Except.ok heap =>
      match taskDesc.taskDefinition with
      | none => { trace := [call], outcome := Outcome.panic (Panic.nilDereference 115) }
      | some td =>
        let rest := registerAndUpdate flags svc service (loadInput heap (futureDef td))
        { trace := call :: rest.trace, outcome := rest.outcome }

/-- Lines 51-157: the function `main` once `flag.Parse()` has returned, on the
flag variables it has set. -/
def mainAfterParse (flags : Flags) (svc : ControlPlane) : Run :=
  if flags.clusterName = "" ∨ ¬ arrayFlag.Specified flags.apps = true ∨ flags.region = "" then
    { trace := [], outcome := fail Failure.missingParameters }
  else if flags.repoName = "" ∨ flags.sha = "" then
    { trace := [], outcome := fail Failure.noRepoOrSha }
  else
    match flags.apps with
    | [] => { trace := [], outcome := Outcome.panic (Panic.indexOutOfRange 62) }
    | exemplarServiceName :: _ =>
      let input : DescribeServicesInput :=
        { cluster := some flags.clusterName, services := [exemplarServiceName] }
      match svc.DescribeServices input with
      | Reply.error err =>
        { trace := [Call.describeServices input (Reply.error err)]
          outcome := fail (Failure.describeServices err) }
      | Reply.ok serviceDesc =>
        let call := Call.describeServices input (Reply.ok serviceDesc)
        match serviceDesc.services with
        | [] => { trace := [call], outcome := fail Failure.noServiceFound }
        | none :: _ => { trace := [call], outcome := Outcome.panic (Panic.nilDereference 91) }
        | some service :: _ =>
          match service.serviceName with
          | none => { trace := [call], outcome := Outcome.panic (Panic.nilDereference 91) }
          | some serviceName =>
            if exemplarServiceName ≠ serviceName then
              { trace := [call], outcome := fail Failure.wrongService }
            else
              match service.clusterArn with
              | none => { trace := [call], outcome := Outcome.panic (Panic.nilDereference 96) }
              | some _ =>
                let rest := fetchAndDeploy flags svc service
                { trace := call :: rest.trace, outcome := rest.outcome }

/-- The function `main` (lines 48-157) on the arguments of the process. -/
def main (args : List String) (svc : ControlPlane) : Run :=
  match flagParse args with
  | ParseResult.help => { trace := [], outcome := Outcome.exitInParse 0 }
  | ParseResult.failed => { trace := [], outcome := Outcome.exitInParse 2 }
  | ParseResult.parsed flags => mainAfterParse flags svc

/-! ## Observations on a trace -/

/-- The inputs of the `UpdateService` calls of a trace, in order. -/
def updateCalls : List Call → List UpdateServiceInput
  | [] => []
  | Call.updateService input _ :: rest => input :: updateCalls rest
  | _ :: rest => updateCalls rest

/-- The inputs of the `RegisterTaskDefinition` calls of a trace, in order. -/
def registerCalls : List Call → List RegisterTaskDefinitionInput
  | [] => []
  | Call.registerTaskDefinition input _ :: rest => input :: registerCalls rest
  | _ :: rest => registerCalls rest

/-- The inputs of the `DescribeTaskDefinition` calls of a trace, in order. -/
def describeTaskDefinitionCalls : List Call → List DescribeTaskDefinitionInput
  | [] => []
  | Call.describeTaskDefinition input _ :: rest => input :: describeTaskDefinitionCalls rest
  | _ :: rest => describeTaskDefinitionCalls rest

/-- Whether the call was answered without an error. -/
def Call.succeeded : Call → Bool
  | Call.describeServices _ (Reply.ok _) => true
  | Call.describeTaskDefinition _ (Reply.ok _) => true
  | Call.registerTaskDefinition _ (Reply.ok _) => true
  | Call.updateService _ (Reply.ok _) => true
  | _ => false

/-- The call recorded for a successful update of `appName`. -/
def updatedCall (clusterName : String) (service : Service) (newArn : String)
    (appName : String) : Call :=
  Call.updateService (updateInput clusterName service newArn appName) (Reply.ok ())

/-- The document of a fetched task definition after line 112: the image of the
first container is overwritten. -/
def withImage (td : TaskDefinition) (containerDef : ContainerDefinition)
    (others : List (Option ContainerDefinition)) (imageName : String) : TaskDefinition :=
  { td with containerDefinitions := some { containerDef with image := some imageName } :: others }

/-- The outcomes of a run that stops after validation and before the loop. -/
def Outcome.stopped (o : Outcome) : Prop :=
  (∃ site, o = Outcome.exit 2 site ∧ site ≠ Failure.missingParameters ∧
    site ≠ Failure.noRepoOrSha) ∨ ∃ p, o = Outcome.panic p

/-! ## The scenario of the specification -/

/-- The arguments of the scenario. -/
def scenarioArgs : List String :=
  ["-c", "prod", "-i", "acme/app", "-s", "abc123", "-r", "eu-west-1", "-a", "web", "-a", "worker"]

/-- The request: cluster prod, repository acme/app, tag abc123, services web and worker. -/
def scenarioFlags : Flags :=
  { clusterName := "prod", repoName := "acme/app", sha := "abc123", region := "eu-west-1"
    debug := false, apps := ["web", "worker"] }

/-- The single container of revision 7. -/
def scenarioContainer : ContainerDefinition :=
  { name := some "app", image := some "acme/app:old", cpu := some 256, memory := some 512
    essential := some true, command := ["serve"], environment := [⟨some "ENV", some "prod"⟩] }

/-- Revision 7 of the family app-family. -/
def scenarioTaskDefinition : TaskDefinition :=
  { taskDefinitionArn := some "arn:app-family:7"
    containerDefinitions := [some scenarioContainer]
    family := some "app-family"
    revision := some 7
    status := some "ACTIVE"
    volumes := [⟨some "data", some "/data"⟩]
    networkMode := some "bridge"
    taskRoleArn := some "arn:role/task"
    cpu := some "256"
    memory := some "512"
    requiresCompatibilities := ["EC2"]
    executionRoleArn := some "arn:role/exec"
    placementConstraints := [] }

/-- The descriptor the control plane holds for a service name. -/
def scenarioService (name : String) : Service :=
  { serviceName := some name, clusterArn := some "arn:cluster/prod"
    taskDefinition := some "arn:app-family:7", desiredCount := some 3 }

/-- Revision 8, as the control plane registers it from the submitted input. -/
def scenarioRegistered (input : RegisterTaskDefinitionInput) : TaskDefinition :=
  { scenarioTaskDefinition with
    taskDefinitionArn := some "arn:app-family:8",
    revision := some 8,
    containerDefinitions := input.containerDefinitions }

/-- A control plane that knows every service and registers revision 8; its
`UpdateService` fails from call number `failAt` on. -/
def scenarioControlPlane (failAt : Nat) : ControlPlane where
  DescribeServices input := Reply.ok ⟨input.services.map (fun name => some (scenarioService name))⟩
  DescribeTaskDefinition _ := Reply.ok ⟨some scenarioTaskDefinition⟩
  RegisterTaskDefinition input := Reply.ok ⟨some (scenarioRegistered input)⟩
  UpdateService done _ := if done < failAt then Reply.ok () else Reply.error "upstream"

/-- A control plane whose lookup answers with `services` and whose fetch
answers with `fetched`, otherwise as `scenarioControlPlane`. -/
def stubControlPlane (services : List (Option Service)) (fetched : Option TaskDefinition)
    (failAt : Nat) : ControlPlane where
  DescribeServices _ := Reply.ok ⟨services⟩
  DescribeTaskDefinition _ := Reply.ok ⟨fetched⟩
  RegisterTaskDefinition input := Reply.ok ⟨some (scenarioRegistered input)⟩
  UpdateService done _ := if done < failAt then Reply.ok () else Reply.error "upstream"

/-! ## The loop -/

theorem updateServices_mem (svc : ControlPlane) (clusterName : String) (service : Service)
    (newArn : String) (apps : List String) (done : Nat) (c : Call)
    (h : c ∈ (updateServices svc clusterName service newArn apps done).trace) :
    ∃ appName reply, appName ∈ apps ∧
      c = Call.updateService (updateInput clusterName service newArn appName) reply := by
  induction apps generalizing done with
  | nil => simp [updateServices] at h
  | cons a rest ih =>
    cases hrep : svc.UpdateService done (updateInput clusterName service newArn a) with
    | error err =>
      simp [updateServices, hrep] at h
      exact ⟨a, _, by simp, h⟩
    | ok u =>
      simp [updateServices, hrep] at h
      rcases h with h | h
      · exact ⟨a, _, by simp, h⟩
      · obtain ⟨b, r, hb, hc⟩ := ih _ h
        exact ⟨b, r, by simp [hb], hc⟩

/-- When every call of the loop is answered without error, the loop issues one
call per application, in order, and `main` returns. -/
theorem updateServices_all_ok (svc : ControlPlane) (clusterName : String) (service : Service)
    (newArn : String) (apps : List String) (done : Nat)
    (hok : ∀ i (h : i < apps.length),
      svc.UpdateService (done + i) (updateInput clusterName service newArn apps[i]) = Reply.ok ()) :
    updateServices svc clusterName service newArn apps done =
      { trace := apps.map (updatedCall clusterName service newArn)
        outcome := Outcome.returned } := by
  induction apps generalizing done with
  | nil => simp [updateServices]
  | cons a rest ih =>
    have h0 := hok 0 (by simp)
    simp at h0
    have hrest : ∀ i (h : i < rest.length),
        svc.UpdateService (done + 1 + i) (updateInput clusterName service newArn rest[i]) =
          Reply.ok () := by
      intro i h
      have := hok (i + 1) (by simp; omega)
      simpa [Nat.add_assoc, Nat.add_comm 1 i] using this
    simp [updateServices, h0, ih (done + 1) hrest, updatedCall]

/-- When the first `k` calls of the loop are answered without error and call
`k` is answered with an error, the loop issues the calls for the first `k + 1`
applications and stops with `fail`. -/
theorem updateServices_fail_at (svc : ControlPlane) (clusterName : String) (service : Service)
    (newArn : String) (apps : List String) (done k : Nat) (err : String) (hk : k < apps.length)
    (hok : ∀ i (h : i < k),
      svc.UpdateService (done + i) (updateInput clusterName service newArn apps[i]) = Reply.ok ())
    (hfail : svc.UpdateService (done + k) (updateInput clusterName service newArn apps[k]) =
      Reply.error err) :
    updateServices svc clusterName service newArn apps done =
      { trace := (apps.take k).map (updatedCall clusterName service newArn) ++
          [Call.updateService (updateInput clusterName service newArn apps[k]) (Reply.error err)]
        outcome := fail (Failure.updateService apps[k] err) } := by
  induction apps generalizing done k with
  | nil => simp at hk
  | cons a rest ih =>
    cases k with
    | zero =>
      simp at hfail
      simp [updateServices, hfail]
    | succ k =>
      have h0 := hok 0 (by omega)
      simp at h0
      have hk2 : k < rest.length := by simpa using hk
      have hrest : ∀ i (h : i < k),
          svc.UpdateService (done + 1 + i) (updateInput clusterName service newArn rest[i]) =
            Reply.ok () := by
        intro i h
        have := hok (i + 1) (by omega)
        simpa [Nat.add_assoc, Nat.add_comm 1 i] using this
      have hf : svc.UpdateService (done + 1 + k)
          (updateInput clusterName service newArn rest[k]) = Reply.error err := by
        simpa [Nat.add_assoc, Nat.add_comm 1 k] using hfail
      simp [updateServices, h0, ih (done + 1) k hk2 hrest hf, updatedCall]

/-- The loop either runs to the end with every call answered without error, or
stops with `fail` at a call answered with an error. -/
theorem updateServices_cases (svc : ControlPlane) (clusterName : String) (service : Service)
    (newArn : String) (apps : List String) (done : Nat) :
    ((updateServices svc clusterName service newArn apps done).outcome = Outcome.returned ∧
      (updateServices svc clusterName service newArn apps done).trace.length = apps.length ∧
      ∀ c ∈ (updateServices svc clusterName service newArn apps done).trace,
        c.succeeded = true) ∨
    ((∃ appName err, (updateServices svc clusterName service newArn apps done).outcome =
        Outcome.exit 2 (Failure.updateService appName err)) ∧
      ∃ c ∈ (updateServices svc clusterName service newArn apps done).trace,
        c.succeeded = false) := by
  induction apps generalizing done with
  | nil => simp [updateServices]
  | cons a rest ih =>
    cases hrep : svc.UpdateService done (updateInput clusterName service newArn a) with
    | error err =>
      right
      simp [updateServices, hrep, fail, Call.succeeded]
    | ok u =>
      rcases ih (done + 1) with ⟨h1, h2, h3⟩ | ⟨h1, c, hc, hs⟩
      · left
        simp [updateServices, hrep, h1, h2, Call.succeeded]
        exact h3
      · right
        simp [updateServices, hrep]
        exact ⟨h1, Or.inr ⟨c, hc, hs⟩⟩

/-! ## The memory -/

theorem allocate_heap (documents : List (Option ContainerDefinition)) (heap : Heap) :
    (allocate documents heap).1 = heap ++ documents.reduceOption := by
  induction documents generalizing heap with
  | nil => simp [allocate]
  | cons member rest ih =>
    cases member with
    | none => simp [allocate, ih]
    | some container => simp [allocate, ih]

/-- Reading the allocated pointers gives back the documents, in any heap that
agrees with the allocated one from the first fresh address on. -/
theorem allocate_load (documents : List (Option ContainerDefinition)) (heap other : Heap)
    (hsame : ∀ i, heap.length ≤ i → other[i]? = (allocate documents heap).1[i]?) :
    (allocate documents heap).2.map (deref other) = documents := by
  induction documents generalizing heap with
  | nil => simp [allocate]
  | cons member rest ih =>
    cases member with
    | none =>
      simp only [allocate, List.map_cons, deref, Option.bind]
      rw [ih heap (by simpa [allocate] using hsame)]
    | some container =>
      have hrest := ih (heap ++ [container]) (fun i hi => by
        have := hsame i (by simp at hi; omega)
        simpa [allocate] using this)
      have hfirst : other[heap.length]? = some container := by
        rw [hsame heap.length (le_refl _)]
        simp only [allocate, allocate_heap, List.append_assoc]
        rw [List.getElem?_append_right (le_refl _)]
        simp
      simp only [allocate, List.map_cons, deref, Option.bind]
      rw [hrest, hfirst]

/-- The fetched task definition in memory: the first container, when it is not
`null`, is cell 0 of the heap. -/
theorem unmarshal_cons (td : TaskDefinition) (containerDef : ContainerDefinition)
    (others : List (Option ContainerDefinition))
    (h : td.containerDefinitions = some containerDef :: others) :
    unmarshal ⟨some td⟩ =
      (containerDef :: others.reduceOption,
        ⟨some (td.withContainers (some 0 :: (allocate others [containerDef]).2))⟩) := by
  simp [unmarshal, h, allocate, allocate_heap]

/-- The store of line 112 on the fetched task definition: cell 0 is overwritten. -/
theorem setImage_cons (td : TaskDefinition) (containerDef : ContainerDefinition)
    (others : List (Option ContainerDefinition)) (imageName : String)
    (h : td.containerDefinitions = some containerDef :: others) :
    setImage (unmarshal ⟨some td⟩).1 (unmarshal ⟨some td⟩).2 imageName =
      Except.ok ({ containerDef with image := some imageName } :: others.reduceOption) := by
  rw [unmarshal_cons td containerDef others h]
  simp [setImage, TaskDefinitionOf.withContainers]

/-- The fetched task definition, read after the store of line 112. -/
theorem loadTaskDefinition_after (td : TaskDefinition) (containerDef : ContainerDefinition)
    (others : List (Option ContainerDefinition)) (imageName : String) :
    loadTaskDefinition ({ containerDef with image := some imageName } :: others.reduceOption)
        (td.withContainers (some 0 :: (allocate others [containerDef]).2)) =
      withImage td containerDef others imageName := by
  have hload := allocate_load others [containerDef]
    ({ containerDef with image := some imageName } :: others.reduceOption) (fun i hi => by
      obtain ⟨j, rfl⟩ : ∃ j, i = j + 1 := ⟨i - 1, by simp at hi; omega⟩
      simp [allocate_heap])
  simp [loadTaskDefinition, TaskDefinitionOf.withContainers, withImage, hload, deref]

/-! ## The straight-line part of `main` -/

/-- A request that passes both checks of lines 51-59 goes on to the lookup of
the exemplar. -/
theorem main_of_valid (flags : Flags) (svc : ControlPlane) (exemplar : String)
    (rest : List String) (hcluster : flags.clusterName ≠ "") (hregion : flags.region ≠ "")
    (hrepo : flags.repoName ≠ "") (hsha : flags.sha ≠ "")
    (happs : flags.apps = exemplar :: rest) :
    mainAfterParse flags svc =
      match svc.DescribeServices ⟨some flags.clusterName, [exemplar]⟩ with
      | Reply.error err =>
        ⟨[Call.describeServices ⟨some flags.clusterName, [exemplar]⟩ (Reply.error err)],
          fail (Failure.describeServices err)⟩
      | Reply.ok serviceDesc =>
        match serviceDesc.services with
        | [] => ⟨[Call.describeServices ⟨some flags.clusterName, [exemplar]⟩ (Reply.ok serviceDesc)],
            fail Failure.noServiceFound⟩
        | none :: _ =>
          ⟨[Call.describeServices ⟨some flags.clusterName, [exemplar]⟩ (Reply.ok serviceDesc)],
            Outcome.panic (Panic.nilDereference 91)⟩
        | some service :: _ =>
          match service.serviceName with
          | none =>
            ⟨[Call.describeServices ⟨some flags.clusterName, [exemplar]⟩ (Reply.ok serviceDesc)],
              Outcome.panic (Panic.nilDereference 91)⟩
          | some serviceName =>
            if exemplar ≠ serviceName then
              ⟨[Call.describeServices ⟨some flags.clusterName, [exemplar]⟩ (Reply.ok serviceDesc)],
                fail Failure.wrongService⟩
            else
              match service.clusterArn with
              | none =>
                ⟨[Call.describeServices ⟨some flags.clusterName, [exemplar]⟩
                    (Reply.ok serviceDesc)],
                  Outcome.panic (Panic.nilDereference 96)⟩
              | some _ =>
                ⟨Call.describeServices ⟨some flags.clusterName, [exemplar]⟩
                    (Reply.ok serviceDesc) :: (fetchAndDeploy flags svc service).trace,
                  (fetchAndDeploy flags svc service).outcome⟩ := by
  simp [mainAfterParse, hcluster, hregion, hrepo, hsha, happs, arrayFlag.Specified]

/-- A successful lookup that returns the exemplar goes on to the fetch. -/
theorem main_of_located (flags : Flags) (svc : ControlPlane) (exemplar : String)
    (rest : List String) (service : Service) (more : List (Option Service))
    (clusterArn : String)
    (hcluster : flags.clusterName ≠ "") (hregion : flags.region ≠ "")
    (hrepo : flags.repoName ≠ "") (hsha : flags.sha ≠ "")
    (happs : flags.apps = exemplar :: rest)
    (hlocate : svc.DescribeServices ⟨some flags.clusterName, [exemplar]⟩ =
      Reply.ok ⟨some service :: more⟩)
    (hname : service.serviceName = some exemplar)
    (harn : service.clusterArn = some clusterArn) :
    mainAfterParse flags svc =
      ⟨Call.describeServices ⟨some flags.clusterName, [exemplar]⟩
          (Reply.ok ⟨some service :: more⟩) ::
        (fetchAndDeploy flags svc service).trace, (fetchAndDeploy flags svc service).outcome⟩ := by
  rw [main_of_valid flags svc exemplar rest hcluster hregion hrepo hsha happs]
  simp [hlocate, hname, harn]

/-- A successful fetch of a task definition with a first container goes on to
the registration of the task definition with the new image. -/
theorem fetchAndDeploy_of_fetched (flags : Flags) (svc : ControlPlane) (service : Service)
    (td : TaskDefinition) (containerDef : ContainerDefinition)
    (others : List (Option ContainerDefinition))
    (hfetch : svc.DescribeTaskDefinition ⟨service.taskDefinition⟩ = Reply.ok ⟨some td⟩)
    (hcontainers : td.containerDefinitions = some containerDef :: others) :
    fetchAndDeploy flags svc service =
      ⟨Call.describeTaskDefinition ⟨service.taskDefinition⟩ (Reply.ok ⟨some td⟩) ::
          (registerAndUpdate flags svc service (futureDef
            (withImage td containerDef others (flags.repoName ++ ":" ++ flags.sha)))).trace,
        (registerAndUpdate flags svc service (futureDef
            (withImage td containerDef others (flags.repoName ++ ":" ++ flags.sha)))).outcome⟩ := by
  have hload : loadInput
      ({ containerDef with image := some (flags.repoName ++ ":" ++ flags.sha) } ::
        others.reduceOption)
      (futureDef (td.withContainers (some 0 :: (allocate others [containerDef]).2))) =
      futureDef (withImage td containerDef others (flags.repoName ++ ":" ++ flags.sha)) := by
    rw [← loadTaskDefinition_after td containerDef others _]
    rfl
  simp only [fetchAndDeploy, hfetch,
    setImage_cons td containerDef others _ hcontainers]
  rw [unmarshal_cons td containerDef others hcontainers]
  simp only [hload]

/-- A successful registration that returns an identifier goes on to the loop. -/
theorem registerAndUpdate_of_registered (flags : Flags) (svc : ControlPlane) (service : Service)
    (input : RegisterTaskDefinitionInput) (registered : TaskDefinition) (newArn : String)
    (hregister : svc.RegisterTaskDefinition input = Reply.ok ⟨some registered⟩)
    (hnew : registered.taskDefinitionArn = some newArn) :
    registerAndUpdate flags svc service input =
      ⟨Call.registerTaskDefinition input (Reply.ok ⟨some registered⟩) ::
          (updateServices svc flags.clusterName service newArn flags.apps 0).trace,
        (updateServices svc flags.clusterName service newArn flags.apps 0).outcome⟩ := by
  simp [registerAndUpdate, hregister, hnew]

/-- The registration step either stops right after its one call, or goes on to the loop. -/
theorem registerAndUpdate_cases (flags : Flags) (svc : ControlPlane) (service : Service)
    (input : RegisterTaskDefinitionInput) :
    (∃ reply o, registerAndUpdate flags svc service input =
        ⟨[Call.registerTaskDefinition input reply], o⟩ ∧ o.stopped) ∨
    (∃ registered newArn,
      svc.RegisterTaskDefinition input = Reply.ok ⟨some registered⟩ ∧
      registered.taskDefinitionArn = some newArn) := by
  cases hreg : svc.RegisterTaskDefinition input with
  | error err =>
    refine Or.inl ⟨Reply.error err, fail (Failure.registerTaskDefinition err), ?_,
      Or.inl ⟨_, rfl, by simp, by simp⟩⟩
    simp [registerAndUpdate, hreg]
  | ok registerRes =>
    obtain ⟨registered⟩ := registerRes
    cases registered with
    | none =>
      refine Or.inl ⟨Reply.ok ⟨none⟩, Outcome.panic (Panic.nilDereference 135), ?_,
        Or.inr ⟨_, rfl⟩⟩
      simp [registerAndUpdate, hreg]
    | some registered =>
      cases hnew : registered.taskDefinitionArn with
      | none =>
        refine Or.inl ⟨Reply.ok ⟨some registered⟩, Outcome.panic (Panic.nilDereference 137), ?_,
          Or.inr ⟨_, rfl⟩⟩
        simp [registerAndUpdate, hreg, hnew]
      | some newArn => exact Or.inr ⟨registered, newArn, rfl, hnew⟩

/-- The fetch step either stops right after its one call, or goes on to the
registration with the image of the first container overwritten. -/
theorem fetchAndDeploy_cases (flags : Flags) (svc : ControlPlane) (service : Service) :
    (∃ reply o, fetchAndDeploy flags svc service =
        ⟨[Call.describeTaskDefinition ⟨service.taskDefinition⟩ reply], o⟩ ∧ o.stopped) ∨
    (∃ td containerDef others,
      svc.DescribeTaskDefinition ⟨service.taskDefinition⟩ = Reply.ok ⟨some td⟩ ∧
      td.containerDefinitions = some containerDef :: others) := by
  cases hfetch : svc.DescribeTaskDefinition ⟨service.taskDefinition⟩ with
  | error err =>
    refine Or.inl ⟨Reply.error err, fail (Failure.describeTaskDefinition err), ?_,
      Or.inl ⟨_, rfl, by simp, by simp⟩⟩
    simp [fetchAndDeploy, hfetch]
  | ok taskDesc =>
    obtain ⟨fetched⟩ := taskDesc
    cases fetched with
    | none =>
      refine Or.inl ⟨Reply.ok ⟨none⟩, Outcome.panic (Panic.nilDereference 111), ?_,
        Or.inr ⟨_, rfl⟩⟩
      simp [fetchAndDeploy, hfetch, setImage, unmarshal]
    | some td =>
      cases hcs : td.containerDefinitions with
      | nil =>
        refine Or.inl ⟨Reply.ok ⟨some td⟩, Outcome.panic (Panic.indexOutOfRange 111), ?_,
          Or.inr ⟨_, rfl⟩⟩
        simp [fetchAndDeploy, hfetch, setImage, unmarshal, hcs, allocate,
          TaskDefinitionOf.withContainers]
      | cons first others =>
        cases first with
        | none =>
          refine Or.inl ⟨Reply.ok ⟨some td⟩, Outcome.panic (Panic.nilDereference 112), ?_,
            Or.inr ⟨_, rfl⟩⟩
          simp [fetchAndDeploy, hfetch, setImage, unmarshal, hcs, allocate,
            TaskDefinitionOf.withContainers]
        | some containerDef => exact Or.inr ⟨td, containerDef, others, rfl, hcs⟩

/-- The lookup step either stops right after its one call, or has found the exemplar. -/
theorem locate_cases (flags : Flags) (svc : ControlPlane) (exemplar : String)
    (rest : List String) (hcluster : flags.clusterName ≠ "") (hregion : flags.region ≠ "")
    (hrepo : flags.repoName ≠ "") (hsha : flags.sha ≠ "")
    (happs : flags.apps = exemplar :: rest) :
    (∃ reply o, mainAfterParse flags svc =
        ⟨[Call.describeServices ⟨some flags.clusterName, [exemplar]⟩ reply], o⟩ ∧ o.stopped) ∨
    (∃ service more clusterArn,
      svc.DescribeServices ⟨some flags.clusterName, [exemplar]⟩ =
        Reply.ok ⟨some service :: more⟩ ∧
      service.serviceName = some exemplar ∧ service.clusterArn = some clusterArn) := by
  rw [main_of_valid flags svc exemplar rest hcluster hregion hrepo hsha happs]
  cases hlocate : svc.DescribeServices ⟨some flags.clusterName, [exemplar]⟩ with
  | error err =>
    exact Or.inl ⟨Reply.error err, fail (Failure.describeServices err), rfl,
      Or.inl ⟨_, rfl, by simp, by simp⟩⟩
  | ok serviceDesc =>
    obtain ⟨services⟩ := serviceDesc
    cases services with
    | nil =>
      exact Or.inl ⟨Reply.ok ⟨[]⟩, fail Failure.noServiceFound, rfl,
        Or.inl ⟨_, rfl, by simp, by simp⟩⟩
    | cons first more =>
      cases first with
      | none =>
        exact Or.inl ⟨Reply.ok ⟨none :: more⟩, Outcome.panic (Panic.nilDereference 91), rfl,
          Or.inr ⟨_, rfl⟩⟩
      | some service =>
        cases hname : service.serviceName with
        | none =>
          refine Or.inl ⟨Reply.ok ⟨some service :: more⟩,
            Outcome.panic (Panic.nilDereference 91), ?_, Or.inr ⟨_, rfl⟩⟩
          simp [hname]
        | some serviceName =>
          by_cases hsame : exemplar = serviceName
          · cases harn : service.clusterArn with
            | none =>
              refine Or.inl ⟨Reply.ok ⟨some service :: more⟩,
                Outcome.panic (Panic.nilDereference 96), ?_, Or.inr ⟨_, rfl⟩⟩
              simp [hname, hsame, harn]
            | some clusterArn =>
              exact Or.inr ⟨service, more, clusterArn, rfl, by rw [hsame]; exact hname, harn⟩
          · refine Or.inl ⟨Reply.ok ⟨some service :: more⟩, fail Failure.wrongService, ?_,
              Or.inl ⟨_, rfl, by simp, by simp⟩⟩
            simp [hname, hsame]

/-! ## Observations on the traces of the steps -/

theorem updateCalls_ne_nil_of_mem {t : List Call} {input : UpdateServiceInput}
    {reply : Reply Unit} (hmem : Call.updateService input reply ∈ t) : updateCalls t ≠ [] := by
  induction t with
  | nil => simp at hmem
  | cons c t ih =>
    rcases List.mem_cons.mp hmem with h | h
    · subst h
      simp [updateCalls]
    · cases c <;> simp [updateCalls, ih h]

theorem updateServices_observed (svc : ControlPlane) (clusterName : String) (service : Service)
    (newArn : String) (apps : List String) (done : Nat) :
    registerCalls (updateServices svc clusterName service newArn apps done).trace = [] ∧
    describeTaskDefinitionCalls (updateServices svc clusterName service newArn apps done).trace
      = [] ∧
    (updateCalls (updateServices svc clusterName service newArn apps done).trace).length =
      (updateServices svc clusterName service newArn apps done).trace.length := by
  induction apps generalizing done with
  | nil => simp [updateServices, registerCalls, describeTaskDefinitionCalls, updateCalls]
  | cons a rest ih =>
    cases hrep : svc.UpdateService done (updateInput clusterName service newArn a) with
    | error err =>
      simp [updateServices, hrep, registerCalls, describeTaskDefinitionCalls, updateCalls]
    | ok u =>
      obtain ⟨h1, h2, h3⟩ := ih (done + 1)
      simp [updateServices, hrep, registerCalls, describeTaskDefinitionCalls, updateCalls,
        h1, h2, h3]

theorem updateCalls_map_updatedCall (clusterName : String) (service : Service)
    (newArn : String) (apps : List String) :
    updateCalls (apps.map (updatedCall clusterName service newArn)) =
      apps.map (updateInput clusterName service newArn) := by
  induction apps with
  | nil => simp [updateCalls]
  | cons a rest ih => simp [updateCalls, updatedCall, ih]

theorem updateCalls_append (s t : List Call) :
    updateCalls (s ++ t) = updateCalls s ++ updateCalls t := by
  induction s with
  | nil => simp [updateCalls]
  | cons c s ih => cases c <;> simp [updateCalls, ih]

/-- A run on flags that pass validation either stops before the loop, having
issued at most three calls and no `UpdateService` call, or reaches the loop
after a successful lookup, fetch and registration. -/
theorem main_cases (flags : Flags) (svc : ControlPlane) (exemplar : String)
    (rest : List String) (hcluster : flags.clusterName ≠ "") (hregion : flags.region ≠ "")
    (hrepo : flags.repoName ≠ "") (hsha : flags.sha ≠ "")
    (happs : flags.apps = exemplar :: rest) :
    (∃ reply t o, mainAfterParse flags svc =
        ⟨Call.describeServices ⟨some flags.clusterName, [exemplar]⟩ reply :: t, o⟩ ∧
      o.stopped ∧ t.length ≤ 2 ∧ updateCalls t = []) ∨
    (∃ service more clusterArn td containerDef others registered newArn,
      svc.DescribeServices ⟨some flags.clusterName, [exemplar]⟩ = Reply.ok ⟨some service :: more⟩ ∧
      service.serviceName = some exemplar ∧ service.clusterArn = some clusterArn ∧
      svc.DescribeTaskDefinition ⟨service.taskDefinition⟩ = Reply.ok ⟨some td⟩ ∧
      td.containerDefinitions = some containerDef :: others ∧
      svc.RegisterTaskDefinition (futureDef
        (withImage td containerDef others (flags.repoName ++ ":" ++ flags.sha))) =
          Reply.ok ⟨some registered⟩ ∧
      registered.taskDefinitionArn = some newArn ∧
      mainAfterParse flags svc =
        ⟨Call.describeServices ⟨some flags.clusterName, [exemplar]⟩ (Reply.ok ⟨some service :: more⟩) ::
          Call.describeTaskDefinition ⟨service.taskDefinition⟩ (Reply.ok ⟨some td⟩) ::
          Call.registerTaskDefinition (futureDef
            (withImage td containerDef others (flags.repoName ++ ":" ++ flags.sha)))
            (Reply.ok ⟨some registered⟩) ::
          (updateServices svc flags.clusterName service newArn flags.apps 0).trace,
          (updateServices svc flags.clusterName service newArn flags.apps 0).outcome⟩) := by
  rcases locate_cases flags svc exemplar rest hcluster hregion hrepo hsha happs with
    ⟨reply, o, hrun, ho⟩ | ⟨service, more, clusterArn, hlocate, hname, harn⟩
  · exact Or.inl ⟨reply, [], o, hrun, ho, by simp, by simp [updateCalls]⟩
  have hmain := main_of_located flags svc exemplar rest service more clusterArn hcluster hregion
    hrepo hsha happs hlocate hname harn
  rcases fetchAndDeploy_cases flags svc service with
    ⟨reply, o, hrun, ho⟩ | ⟨td, containerDef, others, hfetch, hcs⟩
  · refine Or.inl ⟨Reply.ok ⟨some service :: more⟩,
      [Call.describeTaskDefinition ⟨service.taskDefinition⟩ reply], o, ?_, ho,
      by simp, by simp [updateCalls]⟩
    rw [hmain, hrun]
  have hfd := fetchAndDeploy_of_fetched flags svc service td containerDef others hfetch hcs
  rcases registerAndUpdate_cases flags svc service
      (futureDef (withImage td containerDef others (flags.repoName ++ ":" ++ flags.sha))) with
    ⟨reply, o, hrun, ho⟩ | ⟨registered, newArn, hreg, hnew⟩
  · refine Or.inl ⟨Reply.ok ⟨some service :: more⟩,
      [Call.describeTaskDefinition ⟨service.taskDefinition⟩ (Reply.ok ⟨some td⟩),
      Call.registerTaskDefinition (futureDef
        (withImage td containerDef others (flags.repoName ++ ":" ++ flags.sha))) reply], o, ?_, ho,
      by simp, by simp [updateCalls]⟩
    rw [hmain, hfd, hrun]
  · refine Or.inr ⟨service, more, clusterArn, td, containerDef, others, registered, newArn,
      hlocate, hname, harn, hfetch, hcs, hreg, hnew, ?_⟩
    rw [hmain, hfd, registerAndUpdate_of_registered flags svc service _ registered newArn hreg hnew]

theorem registerCalls_registerAndUpdate (flags : Flags) (svc : ControlPlane) (service : Service)
    (input : RegisterTaskDefinitionInput) :
    registerCalls (registerAndUpdate flags svc service input).trace = [input] ∧
    describeTaskDefinitionCalls (registerAndUpdate flags svc service input).trace = [] := by
  rcases registerAndUpdate_cases flags svc service input with
    ⟨reply, o, hrun, _⟩ | ⟨registered, newArn, hreg, hnew⟩
  · simp [hrun, registerCalls, describeTaskDefinitionCalls]
  · rw [registerAndUpdate_of_registered flags svc service input registered newArn hreg hnew]
    simp [registerCalls, describeTaskDefinitionCalls,
      (updateServices_observed svc flags.clusterName service newArn flags.apps 0).1,
      (updateServices_observed svc flags.clusterName service newArn flags.apps 0).2.1]

theorem foldl_Set (values : List String) (init : arrayFlag) :
    values.foldl arrayFlag.Set init = init ++ values := by
  induction values generalizing init with
  | nil => simp
  | cons v values ih => simp [ih, arrayFlag.Set]

/-- A run that locates the exemplar, fetches a task definition with a first
container and registers the new revision consists of these three calls followed
by the loop. -/
theorem main_of_registered (flags : Flags) (svc : ControlPlane)
    (exemplar : String) (rest : List String) (service : Service) (more : List (Option Service))
    (clusterArn : String) (td : TaskDefinition) (containerDef : ContainerDefinition)
    (others : List (Option ContainerDefinition)) (registered : TaskDefinition) (newArn : String)
    (hcluster : flags.clusterName ≠ "") (hregion : flags.region ≠ "")
    (hrepo : flags.repoName ≠ "") (hsha : flags.sha ≠ "")
    (happs : flags.apps = exemplar :: rest)
    (hlocate : svc.DescribeServices ⟨some flags.clusterName, [exemplar]⟩ =
      Reply.ok ⟨some service :: more⟩)
    (hname : service.serviceName = some exemplar)
    (harn : service.clusterArn = some clusterArn)
    (hfetch : svc.DescribeTaskDefinition ⟨service.taskDefinition⟩ = Reply.ok ⟨some td⟩)
    (hcontainers : td.containerDefinitions = some containerDef :: others)
    (hregister : svc.RegisterTaskDefinition (futureDef
      (withImage td containerDef others (flags.repoName ++ ":" ++ flags.sha))) =
        Reply.ok ⟨some registered⟩)
    (hnew : registered.taskDefinitionArn = some newArn) :
    mainAfterParse flags svc =
      ⟨Call.describeServices ⟨some flags.clusterName, [exemplar]⟩ (Reply.ok ⟨some service :: more⟩) ::
        Call.describeTaskDefinition ⟨service.taskDefinition⟩ (Reply.ok ⟨some td⟩) ::
        Call.registerTaskDefinition (futureDef
          (withImage td containerDef others (flags.repoName ++ ":" ++ flags.sha)))
          (Reply.ok ⟨some registered⟩) ::
        (updateServices svc flags.clusterName service newArn flags.apps 0).trace,
        (updateServices svc flags.clusterName service newArn flags.apps 0).outcome⟩ := by
  rw [main_of_located flags svc exemplar rest service more clusterArn hcluster hregion
      hrepo hsha happs hlocate hname harn,
    fetchAndDeploy_of_fetched flags svc service td containerDef others hfetch hcontainers,
    registerAndUpdate_of_registered flags svc service _ registered newArn hregister hnew]

/-- A request that fails one of the checks of lines 51-59 ends with `fail`
before any call. -/
theorem main_of_invalid (flags : Flags) (svc : ControlPlane)
    (h : flags.clusterName = "" ∨ flags.region = "" ∨ flags.apps = [] ∨
      flags.repoName = "" ∨ flags.sha = "") :
    (mainAfterParse flags svc).trace = [] ∧
      ((mainAfterParse flags svc).outcome = fail Failure.missingParameters ∨
        (mainAfterParse flags svc).outcome = fail Failure.noRepoOrSha) := by
  by_cases h1 : flags.clusterName = "" ∨ ¬ arrayFlag.Specified flags.apps = true ∨
      flags.region = ""
  · unfold mainAfterParse
    rw [if_pos h1]
    simp
  · have h2 : flags.repoName = "" ∨ flags.sha = "" := by
      rcases h with h | h | h | h | h
      · exact absurd (Or.inl h) h1
      · exact absurd (Or.inr (Or.inr h)) h1
      · exact absurd (Or.inr (Or.inl (by simp [arrayFlag.Specified, h]))) h1
      · exact Or.inl h
      · exact Or.inr h
    unfold mainAfterParse
    rw [if_neg h1, if_pos h2]
    simp

theorem Outcome.exitCode_of_stopped {o : Outcome} (h : o.stopped) : o.exitCode = 2 := by
  rcases h with ⟨site, rfl, _, _⟩ | ⟨p, rfl⟩ <;> rfl

/-- The document sent for `futureDef` after the store of line 112. -/
theorem loadInput_after (td : TaskDefinition) (containerDef : ContainerDefinition)
    (others : List (Option ContainerDefinition)) (imageName : String) :
    loadInput ({ containerDef with image := some imageName } :: others.reduceOption)
        (futureDef (td.withContainers (some 0 :: (allocate others [containerDef]).2))) =
      futureDef (withImage td containerDef others imageName) := by
  rw [← loadTaskDefinition_after td containerDef others imageName]
  rfl

/-- The fetched task definition, read before the store of line 112, is the
document that was fetched. -/
theorem loadTaskDefinition_before (td : TaskDefinition) (containerDef : ContainerDefinition)
    (others : List (Option ContainerDefinition))
    (h : td.containerDefinitions = some containerDef :: others) :
    loadTaskDefinition (containerDef :: others.reduceOption)
        (td.withContainers (some 0 :: (allocate others [containerDef]).2)) = td := by
  have hload := allocate_load others [containerDef] (containerDef :: others.reduceOption)
    (fun i _ => by simp [allocate_heap])
  obtain ⟨arn, containers, family, revision, status, volumes, networkMode, taskRoleArn, cpu,
    memory, requiresCompatibilities, executionRoleArn, placementConstraints⟩ := td
  simp only at h
  subst h
  simp [loadTaskDefinition, TaskDefinitionOf.withContainers, hload, deref]

/-- The exit status of a run once `flag.Parse()` has returned. -/
theorem mainAfterParse_exit_code (flags : Flags) (svc : ControlPlane) :
    ((mainAfterParse flags svc).outcome.exitCode = 0 ↔
      (flags.clusterName ≠ "" ∧ flags.region ≠ "" ∧ flags.apps ≠ [] ∧
        flags.repoName ≠ "" ∧ flags.sha ≠ "") ∧
      (∃ input service more, (mainAfterParse flags svc).trace[0]? =
          some (Call.describeServices input (Reply.ok ⟨some service :: more⟩)) ∧
        service.serviceName = flags.apps[0]?) ∧
      (describeTaskDefinitionCalls (mainAfterParse flags svc).trace).length = 1 ∧
      (registerCalls (mainAfterParse flags svc).trace).length = 1 ∧
      (updateCalls (mainAfterParse flags svc).trace).length = flags.apps.length ∧
      ∀ c ∈ (mainAfterParse flags svc).trace, c.succeeded = true) ∧
    ((mainAfterParse flags svc).outcome.exitCode = 0 ∨
      (mainAfterParse flags svc).outcome.exitCode = 2) := by
  by_cases hinv : flags.clusterName = "" ∨ flags.region = "" ∨ flags.apps = [] ∨
      flags.repoName = "" ∨ flags.sha = ""
  · have hcode : (mainAfterParse flags svc).outcome.exitCode = 2 := by
      rcases (main_of_invalid flags svc hinv).2 with h | h <;> rw [h] <;> rfl
    refine ⟨⟨fun h => by omega, ?_⟩, Or.inr hcode⟩
    rintro ⟨⟨h1, h2, h3, h4, h5⟩, _⟩
    rcases hinv with h | h | h | h | h
    · exact absurd h h1
    · exact absurd h h2
    · exact absurd h h3
    · exact absurd h h4
    · exact absurd h h5
  · simp only [not_or] at hinv
    obtain ⟨hcluster, hregion, hne, hrepo, hsha⟩ := hinv
    obtain ⟨exemplar, rest, happs⟩ := List.exists_cons_of_ne_nil hne
    rcases main_cases flags svc exemplar rest hcluster hregion hrepo hsha happs with
      ⟨r, t, o, hrun, hstop, _, hnone⟩ |
      ⟨service, more, clusterArn, td, containerDef, others, registered, newArn, _, hname, _, _,
        _, _, _, hrun⟩
    · have hcode : (mainAfterParse flags svc).outcome.exitCode = 2 := by
        rw [hrun]
        exact Outcome.exitCode_of_stopped hstop
      refine ⟨⟨fun h => by omega, ?_⟩, Or.inr hcode⟩
      rintro ⟨_, _, _, _, hlen, _⟩
      rw [hrun] at hlen
      simp [updateCalls, hnone, happs] at hlen
    · obtain ⟨hreg, hdtd, hupd⟩ :=
        updateServices_observed svc flags.clusterName service newArn flags.apps 0
      rcases updateServices_cases svc flags.clusterName service newArn flags.apps 0 with
        ⟨hret, hlen, hall⟩ | ⟨⟨appName, err, hfailed⟩, c, hc, hcfail⟩
      · have hcode : (mainAfterParse flags svc).outcome.exitCode = 0 := by
          rw [hrun]
          simp only [hret]
          rfl
        refine ⟨⟨fun _ => ⟨⟨hcluster, hregion, hne, hrepo, hsha⟩, ?_, ?_, ?_, ?_, ?_⟩,
          fun _ => hcode⟩, Or.inl hcode⟩
        · exact ⟨_, service, more, by rw [hrun]; rfl, by simp [hname, happs]⟩
        · rw [hrun]
          simp [describeTaskDefinitionCalls, hdtd]
        · rw [hrun]
          simp [registerCalls, hreg]
        · rw [hrun]
          simp [updateCalls, hupd, hlen]
        · rw [hrun]
          intro c hc
          simp only [List.mem_cons] at hc
          rcases hc with rfl | rfl | rfl | hc
          · rfl
          · rfl
          · rfl
          · exact hall c hc
      · have hcode : (mainAfterParse flags svc).outcome.exitCode = 2 := by
          rw [hrun]
          simp only [hfailed]
          rfl
        refine ⟨⟨fun h => by omega, ?_⟩, Or.inr hcode⟩
        rintro ⟨_, _, _, _, _, hall⟩
        have := hall c (by rw [hrun]; simp [hc])
        rw [hcfail] at this
        exact absurd this (by simp)

/-- When `flag.Parse()` returns, the run is the one of lines 51-157 on the flag
variables it has set. -/
theorem main_of_parsed (args : List String) (svc : ControlPlane) (flags : Flags)
    (hparse : flagParse args = ParseResult.parsed flags) :
    main args svc = mainAfterParse flags svc := by
  simp [main, hparse]

/-- The arguments of the scenario set the flag variables of the scenario. -/
theorem flagParse_scenarioArgs : flagParse scenarioArgs = ParseResult.parsed scenarioFlags := by
  decide

/-! ## The claims -/

/-- C1, as stated, fails on a fetched task definition whose container list is
not empty but has a `null` first member: the run panics at line 112 after the
fetch and no definition is submitted to `RegisterTaskDefinition`. -/
theorem register_input_nil_first_member_counterexample :
    ({ scenarioTaskDefinition with containerDefinitions := [none] } :
        TaskDefinition).containerDefinitions ≠ [] ∧
      mainAfterParse scenarioFlags (stubControlPlane [some (scenarioService "web")]
          (some { scenarioTaskDefinition with containerDefinitions := [none] }) 2) =
        ⟨[Call.describeServices ⟨some "prod", ["web"]⟩
            (Reply.ok ⟨[some (scenarioService "web")]⟩),
          Call.describeTaskDefinition ⟨some "arn:app-family:7"⟩
            (Reply.ok ⟨some { scenarioTaskDefinition with containerDefinitions := [none] }⟩)],
          Outcome.panic (Panic.nilDereference 112)⟩ ∧
      registerCalls (mainAfterParse scenarioFlags
        (stubControlPlane [some (scenarioService "web")]
          (some { scenarioTaskDefinition with containerDefinitions := [none] }) 2)).trace = [] := by
  decide

/-- C1, amended. When the request passes validation, the exemplar is located
and the fetch returns a task definition `td` whose container list has a first
member `first` that is not `null`, exactly one definition is submitted to
`RegisterTaskDefinition`; it has the family, volumes, network mode, task role,
CPU, memory, compatibility requirements and execution role of `td`, a container
list of the same length that agrees with the one of `td` at every index other
than 0, and as first container `first` with only its image replaced by
`repoName ++ ":" ++ sha`. -/
theorem register_input_is_fetched_with_new_image (flags : Flags) (svc : ControlPlane)
    (exemplar : String) (rest : List String) (service : Service) (more : List (Option Service))
    (clusterArn : String) (td : TaskDefinition) (first : ContainerDefinition)
    (hcluster : flags.clusterName ≠ "") (hregion : flags.region ≠ "")
    (hrepo : flags.repoName ≠ "") (hsha : flags.sha ≠ "")
    (happs : flags.apps = exemplar :: rest)
    (hlocate : svc.DescribeServices ⟨some flags.clusterName, [exemplar]⟩ =
      Reply.ok ⟨some service :: more⟩)
    (hname : service.serviceName = some exemplar)
    (harn : service.clusterArn = some clusterArn)
    (hfetch : svc.DescribeTaskDefinition ⟨service.taskDefinition⟩ = Reply.ok ⟨some td⟩)
    (hfirst : td.containerDefinitions[0]? = some (some first)) :
    ∃ submitted, registerCalls (mainAfterParse flags svc).trace = [submitted] ∧
      submitted.family = td.family ∧
      submitted.volumes = td.volumes ∧
      submitted.networkMode = td.networkMode ∧
      submitted.taskRoleArn = td.taskRoleArn ∧
      submitted.cpu = td.cpu ∧
      submitted.memory = td.memory ∧
      submitted.requiresCompatibilities = td.requiresCompatibilities ∧
      submitted.executionRoleArn = td.executionRoleArn ∧
      submitted.containerDefinitions.length = td.containerDefinitions.length ∧
      (∀ i, i ≠ 0 → submitted.containerDefinitions[i]? = td.containerDefinitions[i]?) ∧
      submitted.containerDefinitions[0]? =
        some (some { first with image := some (flags.repoName ++ ":" ++ flags.sha) }) := by
  cases hcs : td.containerDefinitions with
  | nil => simp [hcs] at hfirst
  | cons member others =>
    have hmember : member = some first := by simpa [hcs] using hfirst
    subst hmember
    refine ⟨futureDef (withImage td first others (flags.repoName ++ ":" ++ flags.sha)),
      ?_, rfl, rfl, rfl, rfl, rfl, rfl, rfl, rfl, ?_, ?_, ?_⟩
    · rw [main_of_located flags svc exemplar rest service more clusterArn hcluster hregion
        hrepo hsha happs hlocate hname harn,
        fetchAndDeploy_of_fetched flags svc service td first others hfetch hcs]
      simp [registerCalls, (registerCalls_registerAndUpdate flags svc service _).1]
    · simp [futureDef, withImage]
    · intro i hi
      obtain ⟨j, rfl⟩ := Nat.exists_eq_succ_of_ne_zero hi
      simp [futureDef, withImage]
    · simp [futureDef, withImage]

/-- The scenario of the specification satisfies the hypotheses of the amended
C1: the one definition submitted is revision 7 with the image `acme/app:abc123`. -/
theorem register_input_is_fetched_with_new_image_witness :
    ∃ submitted, registerCalls (mainAfterParse scenarioFlags (scenarioControlPlane 2)).trace =
        [submitted] ∧
      submitted.family = scenarioTaskDefinition.family ∧
      submitted.volumes = scenarioTaskDefinition.volumes ∧
      submitted.networkMode = scenarioTaskDefinition.networkMode ∧
      submitted.taskRoleArn = scenarioTaskDefinition.taskRoleArn ∧
      submitted.cpu = scenarioTaskDefinition.cpu ∧
      submitted.memory = scenarioTaskDefinition.memory ∧
      submitted.requiresCompatibilities = scenarioTaskDefinition.requiresCompatibilities ∧
      submitted.executionRoleArn = scenarioTaskDefinition.executionRoleArn ∧
      submitted.containerDefinitions.length =
        scenarioTaskDefinition.containerDefinitions.length ∧
      (∀ i, i ≠ 0 →
        submitted.containerDefinitions[i]? = scenarioTaskDefinition.containerDefinitions[i]?) ∧
      submitted.containerDefinitions[0]? =
        some (some { scenarioContainer with
          image := some (scenarioFlags.repoName ++ ":" ++ scenarioFlags.sha) }) :=
  register_input_is_fetched_with_new_image scenarioFlags (scenarioControlPlane 2) "web"
    ["worker"] (scenarioService "web") [] "arn:cluster/prod" scenarioTaskDefinition
    scenarioContainer (by decide) (by decide) (by decide) (by decide) rfl rfl rfl rfl rfl rfl

/-- C7. When the request passes validation and the lookup of the exemplar is
answered with no service, the run stops with the failure of line 87 ("No
service ... found") after that one call: no `DescribeTaskDefinition`,
`RegisterTaskDefinition` or `UpdateService` call is issued. -/
theorem no_service_found_stops (flags : Flags) (svc : ControlPlane)
    (exemplar : String) (rest : List String)
    (hcluster : flags.clusterName ≠ "") (hregion : flags.region ≠ "")
    (hrepo : flags.repoName ≠ "") (hsha : flags.sha ≠ "")
    (happs : flags.apps = exemplar :: rest)
    (hlocate : svc.DescribeServices ⟨some flags.clusterName, [exemplar]⟩ = Reply.ok ⟨[]⟩) :
    mainAfterParse flags svc =
        ⟨[Call.describeServices ⟨some flags.clusterName, [exemplar]⟩ (Reply.ok ⟨[]⟩)],
          fail Failure.noServiceFound⟩ ∧
      (mainAfterParse flags svc).outcome.exitCode = 2 ∧
      describeTaskDefinitionCalls (mainAfterParse flags svc).trace = [] ∧
      registerCalls (mainAfterParse flags svc).trace = [] ∧
      updateCalls (mainAfterParse flags svc).trace = [] := by
  have hmain : mainAfterParse flags svc =
      ⟨[Call.describeServices ⟨some flags.clusterName, [exemplar]⟩ (Reply.ok ⟨[]⟩)],
        fail Failure.noServiceFound⟩ := by
    rw [main_of_valid flags svc exemplar rest hcluster hregion hrepo hsha happs]
    simp [hlocate]
  simp [hmain, fail, Outcome.exitCode, describeTaskDefinitionCalls, registerCalls, updateCalls]

/-- A lookup answered with no service ends the scenario at line 87 after one call. -/
theorem no_service_found_stops_witness :
    mainAfterParse scenarioFlags (stubControlPlane [] none 0) =
        ⟨[Call.describeServices ⟨some scenarioFlags.clusterName, ["web"]⟩ (Reply.ok ⟨[]⟩)],
          fail Failure.noServiceFound⟩ ∧
      (mainAfterParse scenarioFlags (stubControlPlane [] none 0)).outcome.exitCode = 2 ∧
      describeTaskDefinitionCalls (mainAfterParse scenarioFlags (stubControlPlane [] none 0)).trace = [] ∧
      registerCalls (mainAfterParse scenarioFlags (stubControlPlane [] none 0)).trace = [] ∧
      updateCalls (mainAfterParse scenarioFlags (stubControlPlane [] none 0)).trace = [] :=
  no_service_found_stops scenarioFlags (stubControlPlane [] none 0) "web" ["worker"]
    (by decide) (by decide) (by decide) (by decide) rfl rfl

/-- C6. When the request passes validation and the lookup of the exemplar is
answered with a non-empty list whose first member does not carry exactly the
name `apps[0]` (it carries another name, or no name, or is `nil`), the run fails
after that one call: no `DescribeTaskDefinition`, `RegisterTaskDefinition` or
`UpdateService` call is issued. When the descriptor carries another name the
failure is the one of line 93 ("Found the wrong service"). -/
theorem wrong_service_stops (flags : Flags) (svc : ControlPlane)
    (exemplar : String) (rest : List String) (first : Option Service)
    (more : List (Option Service))
    (hcluster : flags.clusterName ≠ "") (hregion : flags.region ≠ "")
    (hrepo : flags.repoName ≠ "") (hsha : flags.sha ≠ "")
    (happs : flags.apps = exemplar :: rest)
    (hlocate : svc.DescribeServices ⟨some flags.clusterName, [exemplar]⟩ =
      Reply.ok ⟨first :: more⟩)
    (hname : first.bind Service.serviceName ≠ some exemplar) :
    (mainAfterParse flags svc).trace =
        [Call.describeServices ⟨some flags.clusterName, [exemplar]⟩
          (Reply.ok ⟨first :: more⟩)] ∧
      (mainAfterParse flags svc).outcome.exitCode = 2 ∧
      (∀ service name, first = some service → service.serviceName = some name →
        (mainAfterParse flags svc).outcome = fail Failure.wrongService) ∧
      describeTaskDefinitionCalls (mainAfterParse flags svc).trace = [] ∧
      registerCalls (mainAfterParse flags svc).trace = [] ∧
      updateCalls (mainAfterParse flags svc).trace = [] := by
  rw [main_of_valid flags svc exemplar rest hcluster hregion hrepo hsha happs]
  cases first with
  | none =>
    simp [hlocate, Outcome.exitCode, describeTaskDefinitionCalls, registerCalls, updateCalls]
  | some service =>
    cases hsn : service.serviceName with
    | none =>
      simp only [hlocate, hsn, Outcome.exitCode, describeTaskDefinitionCalls, registerCalls,
        updateCalls, true_and]
      refine ⟨?_, trivial⟩
      intro other name hsome hn
      cases hsome
      simp [hsn] at hn
    | some name =>
      have hne : ¬ exemplar = name := by
        intro h
        exact hname (by simp [hsn, h])
      simp [hlocate, hsn, hne, fail, Outcome.exitCode, describeTaskDefinitionCalls,
        registerCalls, updateCalls]

/-- A lookup for web answered with the descriptor of worker ends the scenario at line 93. -/
theorem wrong_service_stops_witness :
    (mainAfterParse scenarioFlags
        (stubControlPlane [some (scenarioService "worker")] none 0)).trace =
        [Call.describeServices ⟨some scenarioFlags.clusterName, ["web"]⟩
          (Reply.ok ⟨[some (scenarioService "worker")]⟩)] ∧
      (mainAfterParse scenarioFlags
        (stubControlPlane [some (scenarioService "worker")] none 0)).outcome.exitCode = 2 ∧
      (∀ service name, some (scenarioService "worker") = some service →
        service.serviceName = some name →
        (mainAfterParse scenarioFlags
          (stubControlPlane [some (scenarioService "worker")] none 0)).outcome =
          fail Failure.wrongService) ∧
      describeTaskDefinitionCalls (mainAfterParse scenarioFlags
        (stubControlPlane [some (scenarioService "worker")] none 0)).trace = [] ∧
      registerCalls (mainAfterParse scenarioFlags
        (stubControlPlane [some (scenarioService "worker")] none 0)).trace = [] ∧
      updateCalls (mainAfterParse scenarioFlags
        (stubControlPlane [some (scenarioService "worker")] none 0)).trace = [] :=
  wrong_service_stops scenarioFlags (stubControlPlane [some (scenarioService "worker")] none 0)
    "web" ["worker"] (some (scenarioService "worker")) [] (by decide) (by decide) (by decide)
    (by decide) rfl rfl (by decide)

/-- C8. When the request passes validation, the exemplar is located and the
fetch returns a task definition with an empty container list, the run ends at
line 111 in the run-time panic "index out of range" with exit status 2, after
the lookup and the fetch: no `RegisterTaskDefinition` and no `UpdateService`
call is issued. -/
theorem empty_container_list_panics (flags : Flags) (svc : ControlPlane)
    (exemplar : String) (rest : List String) (service : Service) (more : List (Option Service))
    (clusterArn : String) (td : TaskDefinition)
    (hcluster : flags.clusterName ≠ "") (hregion : flags.region ≠ "")
    (hrepo : flags.repoName ≠ "") (hsha : flags.sha ≠ "")
    (happs : flags.apps = exemplar :: rest)
    (hlocate : svc.DescribeServices ⟨some flags.clusterName, [exemplar]⟩ =
      Reply.ok ⟨some service :: more⟩)
    (hname : service.serviceName = some exemplar)
    (harn : service.clusterArn = some clusterArn)
    (hfetch : svc.DescribeTaskDefinition ⟨service.taskDefinition⟩ = Reply.ok ⟨some td⟩)
    (hcontainers : td.containerDefinitions = []) :
    mainAfterParse flags svc =
        ⟨[Call.describeServices ⟨some flags.clusterName, [exemplar]⟩
            (Reply.ok ⟨some service :: more⟩),
          Call.describeTaskDefinition ⟨service.taskDefinition⟩ (Reply.ok ⟨some td⟩)],
          Outcome.panic (Panic.indexOutOfRange 111)⟩ ∧
      (mainAfterParse flags svc).outcome.exitCode = 2 ∧
      registerCalls (mainAfterParse flags svc).trace = [] ∧
      updateCalls (mainAfterParse flags svc).trace = [] := by
  have hmain : mainAfterParse flags svc =
      ⟨[Call.describeServices ⟨some flags.clusterName, [exemplar]⟩
          (Reply.ok ⟨some service :: more⟩),
        Call.describeTaskDefinition ⟨service.taskDefinition⟩ (Reply.ok ⟨some td⟩)],
        Outcome.panic (Panic.indexOutOfRange 111)⟩ := by
    rw [main_of_located flags svc exemplar rest service more clusterArn hcluster hregion
      hrepo hsha happs hlocate hname harn]
    simp [fetchAndDeploy, hfetch, setImage, unmarshal, hcontainers, allocate,
      TaskDefinitionOf.withContainers]
  simp [hmain, Outcome.exitCode, registerCalls, updateCalls]

/-- Revision 7 without containers ends the scenario in the panic of line 111. -/
theorem empty_container_list_panics_witness :
    mainAfterParse scenarioFlags (stubControlPlane [some (scenarioService "web")]
        (some { scenarioTaskDefinition with containerDefinitions := [] }) 2) =
        ⟨[Call.describeServices ⟨some scenarioFlags.clusterName, ["web"]⟩
            (Reply.ok ⟨[some (scenarioService "web")]⟩),
          Call.describeTaskDefinition ⟨(scenarioService "web").taskDefinition⟩
            (Reply.ok ⟨some { scenarioTaskDefinition with containerDefinitions := [] }⟩)],
          Outcome.panic (Panic.indexOutOfRange 111)⟩ ∧
      (mainAfterParse scenarioFlags (stubControlPlane [some (scenarioService "web")]
        (some { scenarioTaskDefinition with containerDefinitions := [] }) 2)).outcome.exitCode
        = 2 ∧
      registerCalls (mainAfterParse scenarioFlags (stubControlPlane [some (scenarioService "web")]
        (some { scenarioTaskDefinition with containerDefinitions := [] }) 2)).trace = [] ∧
      updateCalls (mainAfterParse scenarioFlags (stubControlPlane [some (scenarioService "web")]
        (some { scenarioTaskDefinition with containerDefinitions := [] }) 2)).trace = [] :=
  empty_container_list_panics scenarioFlags (stubControlPlane [some (scenarioService "web")]
      (some { scenarioTaskDefinition with containerDefinitions := [] }) 2) "web" ["worker"]
    (scenarioService "web") [] "arn:cluster/prod"
    { scenarioTaskDefinition with containerDefinitions := [] }
    (by decide) (by decide) (by decide) (by decide) rfl rfl rfl rfl rfl rfl

/-- C2. When locating, fetching and registering succeed, the `UpdateService`
calls number 0 to `k - 1` are answered without error and call number `k` (the
one for `apps[k]`) is answered with an error, the run ends in the failure of
line 151 for `apps[k]` with exit status 2, and the `UpdateService` calls issued
are exactly those for `apps[0]`, ..., `apps[k]`, in that order, each carrying
the new revision: the first `k` were answered without error, none is issued
for an application after index `k`, and none carries another task definition. -/
theorem update_failure_aborts (flags : Flags) (svc : ControlPlane)
    (exemplar : String) (rest : List String) (service : Service) (more : List (Option Service))
    (clusterArn : String) (td : TaskDefinition) (containerDef : ContainerDefinition)
    (others : List (Option ContainerDefinition)) (registered : TaskDefinition) (newArn : String)
    (k : Nat) (err : String)
    (hcluster : flags.clusterName ≠ "") (hregion : flags.region ≠ "")
    (hrepo : flags.repoName ≠ "") (hsha : flags.sha ≠ "")
    (happs : flags.apps = exemplar :: rest)
    (hlocate : svc.DescribeServices ⟨some flags.clusterName, [exemplar]⟩ =
      Reply.ok ⟨some service :: more⟩)
    (hname : service.serviceName = some exemplar)
    (harn : service.clusterArn = some clusterArn)
    (hfetch : svc.DescribeTaskDefinition ⟨service.taskDefinition⟩ = Reply.ok ⟨some td⟩)
    (hcontainers : td.containerDefinitions = some containerDef :: others)
    (hregister : svc.RegisterTaskDefinition (futureDef
      (withImage td containerDef others (flags.repoName ++ ":" ++ flags.sha))) =
        Reply.ok ⟨some registered⟩)
    (hnew : registered.taskDefinitionArn = some newArn)
    (hk : k < flags.apps.length)
    (hok : ∀ i (h : i < k), svc.UpdateService i
      (updateInput flags.clusterName service newArn flags.apps[i]) = Reply.ok ())
    (hfail : svc.UpdateService k
      (updateInput flags.clusterName service newArn flags.apps[k]) = Reply.error err) :
    (mainAfterParse flags svc).outcome = fail (Failure.updateService flags.apps[k] err) ∧
      (mainAfterParse flags svc).outcome.exitCode = 2 ∧
      updateCalls (mainAfterParse flags svc).trace =
        (flags.apps.take (k + 1)).map (updateInput flags.clusterName service newArn) ∧
      (mainAfterParse flags svc).trace =
        [Call.describeServices ⟨some flags.clusterName, [exemplar]⟩
            (Reply.ok ⟨some service :: more⟩),
          Call.describeTaskDefinition ⟨service.taskDefinition⟩ (Reply.ok ⟨some td⟩),
          Call.registerTaskDefinition (futureDef
            (withImage td containerDef others (flags.repoName ++ ":" ++ flags.sha)))
            (Reply.ok ⟨some registered⟩)] ++
        (flags.apps.take k).map (updatedCall flags.clusterName service newArn) ++
        [Call.updateService (updateInput flags.clusterName service newArn flags.apps[k])
          (Reply.error err)] := by
  have hloop := updateServices_fail_at svc flags.clusterName service newArn flags.apps 0 k err hk
    (by simpa using hok) (by simpa using hfail)
  have hmain := main_of_registered flags svc exemplar rest service more clusterArn td
    containerDef others registered newArn hcluster hregion hrepo hsha happs hlocate hname harn
    hfetch hcontainers hregister hnew
  rw [hloop] at hmain
  refine ⟨by rw [hmain], by rw [hmain]; rfl, ?_, by rw [hmain]; simp⟩
  rw [hmain]
  simp only [updateCalls, updateCalls_append, updateCalls_map_updatedCall]
  rw [List.take_succ, List.map_append]
  simp [List.getElem?_eq_getElem hk]

/-- In the scenario with a failing update of worker, web is updated to revision
8, the call for worker fails, and the run ends with exit status 2. -/
theorem update_failure_aborts_witness :
    (mainAfterParse scenarioFlags (scenarioControlPlane 1)).outcome =
        fail (Failure.updateService "worker" "upstream") ∧
      (mainAfterParse scenarioFlags (scenarioControlPlane 1)).outcome.exitCode = 2 ∧
      updateCalls (mainAfterParse scenarioFlags (scenarioControlPlane 1)).trace =
        [⟨some "prod", some "web", some 3, some "arn:app-family:8"⟩,
          ⟨some "prod", some "worker", some 3, some "arn:app-family:8"⟩] :=
  have h := update_failure_aborts scenarioFlags (scenarioControlPlane 1) "web" ["worker"]
    (scenarioService "web") [] "arn:cluster/prod" scenarioTaskDefinition scenarioContainer []
    (scenarioRegistered (futureDef (withImage scenarioTaskDefinition scenarioContainer []
      (scenarioFlags.repoName ++ ":" ++ scenarioFlags.sha))))
    "arn:app-family:8" 1 "upstream"
    (by decide) (by decide) (by decide) (by decide) rfl rfl rfl rfl rfl rfl rfl rfl
    (by decide) (fun i h => by
      have h0 : i = 0 := by omega
      subst h0
      rfl) rfl
  ⟨h.1, h.2.1, h.2.2.1⟩

/-- C3. When the application list is accumulated by `Set` from the values
`exemplar :: rest` and every control-plane call succeeds (the lookup returns
the exemplar, the fetch a task definition with a first container, the
registration an identifier, and every update is answered without error), the
run returns with exit status 0 and the service names passed to `UpdateService`
are exactly `exemplar :: rest`: same length, same order, the exemplar included,
a repeated name once per occurrence. -/
theorem updates_follow_apps_in_order (flags : Flags) (svc : ControlPlane)
    (exemplar : String) (rest : List String) (service : Service) (more : List (Option Service))
    (clusterArn : String) (td : TaskDefinition) (containerDef : ContainerDefinition)
    (others : List (Option ContainerDefinition)) (registered : TaskDefinition) (newArn : String)
    (hcluster : flags.clusterName ≠ "") (hregion : flags.region ≠ "")
    (hrepo : flags.repoName ≠ "") (hsha : flags.sha ≠ "")
    (happs : flags.apps = (exemplar :: rest).foldl arrayFlag.Set [])
    (hlocate : svc.DescribeServices ⟨some flags.clusterName, [exemplar]⟩ =
      Reply.ok ⟨some service :: more⟩)
    (hname : service.serviceName = some exemplar)
    (harn : service.clusterArn = some clusterArn)
    (hfetch : svc.DescribeTaskDefinition ⟨service.taskDefinition⟩ = Reply.ok ⟨some td⟩)
    (hcontainers : td.containerDefinitions = some containerDef :: others)
    (hregister : svc.RegisterTaskDefinition (futureDef
      (withImage td containerDef others (flags.repoName ++ ":" ++ flags.sha))) =
        Reply.ok ⟨some registered⟩)
    (hnew : registered.taskDefinitionArn = some newArn)
    (hupdates : ∀ i (h : i < flags.apps.length), svc.UpdateService i
      (updateInput flags.clusterName service newArn flags.apps[i]) = Reply.ok ()) :
    (mainAfterParse flags svc).outcome = Outcome.returned ∧
      (mainAfterParse flags svc).outcome.exitCode = 0 ∧
      (updateCalls (mainAfterParse flags svc).trace).map UpdateServiceInput.service =
        (exemplar :: rest).map some ∧
      updateCalls (mainAfterParse flags svc).trace =
        (exemplar :: rest).map (updateInput flags.clusterName service newArn) := by
  have happs2 : flags.apps = exemplar :: rest := by rw [happs, foldl_Set]; simp
  have hloop := updateServices_all_ok svc flags.clusterName service newArn flags.apps 0
    (by simpa using hupdates)
  have hmain := main_of_registered flags svc exemplar rest service more clusterArn td
    containerDef others registered newArn hcluster hregion hrepo hsha happs2 hlocate hname harn
    hfetch hcontainers hregister hnew
  rw [hloop] at hmain
  have hcalls : updateCalls (mainAfterParse flags svc).trace =
      (exemplar :: rest).map (updateInput flags.clusterName service newArn) := by
    rw [hmain]
    simp only [updateCalls, updateCalls_map_updatedCall, happs2]
  refine ⟨by rw [hmain], by rw [hmain]; rfl, ?_, hcalls⟩
  rw [hcalls]
  simp [updateInput]

/-- In the scenario the flags `-a web -a worker` yield the updates of web, then worker. -/
theorem updates_follow_apps_in_order_witness :
    (mainAfterParse scenarioFlags (scenarioControlPlane 2)).outcome = Outcome.returned ∧
      (mainAfterParse scenarioFlags (scenarioControlPlane 2)).outcome.exitCode = 0 ∧
      (updateCalls (mainAfterParse scenarioFlags (scenarioControlPlane 2)).trace).map
        UpdateServiceInput.service = [some "web", some "worker"] :=
  have h := updates_follow_apps_in_order scenarioFlags (scenarioControlPlane 2) "web"
    ["worker"] (scenarioService "web") [] "arn:cluster/prod" scenarioTaskDefinition
    scenarioContainer []
    (scenarioRegistered (futureDef (withImage scenarioTaskDefinition scenarioContainer []
      (scenarioFlags.repoName ++ ":" ++ scenarioFlags.sha))))
    "arn:app-family:8"
    (by decide) (by decide) (by decide) (by decide) rfl rfl rfl rfl rfl rfl rfl rfl
    (fun i h => by
      have h2 : i < 2 := h
      simp [scenarioControlPlane, h2])
  ⟨h.1, h.2.1, h.2.2.1⟩

/-- C4. Every `UpdateService` call issued by a run, whether the run returns or
aborts, carries the cluster of the flags, the desired count of the descriptor
returned by the lookup of `apps[0]` (the first call of the run) and the
identifier returned by the successful `RegisterTaskDefinition` call of the same
run (its third call); its service is one of the applications. -/
theorem update_carries_exemplar_count_and_new_revision (flags : Flags) (svc : ControlPlane)
    (input : UpdateServiceInput) (reply : Reply Unit)
    (h : Call.updateService input reply ∈ (mainAfterParse flags svc).trace) :
    ∃ exemplar service more submitted registered newArn,
      flags.apps.head? = some exemplar ∧
      (mainAfterParse flags svc).trace[0]? = some (Call.describeServices
        ⟨some flags.clusterName, [exemplar]⟩ (Reply.ok ⟨some service :: more⟩)) ∧
      (mainAfterParse flags svc).trace[2]? = some (Call.registerTaskDefinition submitted
        (Reply.ok ⟨some registered⟩)) ∧
      registered.taskDefinitionArn = some newArn ∧
      input.cluster = some flags.clusterName ∧
      input.desiredCount = service.desiredCount ∧
      input.taskDefinition = some newArn ∧
      ∃ appName, appName ∈ flags.apps ∧ input.service = some appName := by
  by_cases hinv : flags.clusterName = "" ∨ flags.region = "" ∨ flags.apps = [] ∨
      flags.repoName = "" ∨ flags.sha = ""
  · rw [(main_of_invalid flags svc hinv).1] at h
    simp at h
  · simp only [not_or] at hinv
    obtain ⟨hcluster, hregion, hne, hrepo, hsha⟩ := hinv
    obtain ⟨exemplar, rest, happs⟩ := List.exists_cons_of_ne_nil hne
    rcases main_cases flags svc exemplar rest hcluster hregion hrepo hsha happs with
      ⟨r, t, o, hrun, _, _, hnone⟩ |
      ⟨service, more, clusterArn, td, containerDef, others, registered, newArn, _, _, _, _, _,
        _, hnew, hrun⟩
    · rw [hrun] at h
      have := updateCalls_ne_nil_of_mem h
      simp [updateCalls, hnone] at this
    · rw [hrun] at h ⊢
      simp only [List.mem_cons] at h
      rcases h with h | h | h | h
      · cases h
      · cases h
      · cases h
      · obtain ⟨appName, r, hmem, hcall⟩ := updateServices_mem _ _ _ _ _ _ _ h
        injection hcall with hinput _
        subst hinput
        exact ⟨exemplar, service, more,
          futureDef (withImage td containerDef others (flags.repoName ++ ":" ++ flags.sha)),
          registered, newArn, by simp [happs], by simp, by simp, hnew, rfl, rfl, rfl, appName,
          hmem, rfl⟩

/-- In the scenario the update of worker carries cluster prod, the count 3 of
the descriptor of web and the identifier of revision 8. -/
theorem update_carries_exemplar_count_and_new_revision_witness :
    ∃ exemplar service more submitted registered newArn,
      scenarioFlags.apps.head? = some exemplar ∧
      (mainAfterParse scenarioFlags (scenarioControlPlane 2)).trace[0]? = some (Call.describeServices
        ⟨some scenarioFlags.clusterName, [exemplar]⟩ (Reply.ok ⟨some service :: more⟩)) ∧
      (mainAfterParse scenarioFlags (scenarioControlPlane 2)).trace[2]? =
        some (Call.registerTaskDefinition submitted (Reply.ok ⟨some registered⟩)) ∧
      registered.taskDefinitionArn = some newArn ∧
      (⟨some "prod", some "worker", some 3, some "arn:app-family:8"⟩ :
        UpdateServiceInput).cluster = some scenarioFlags.clusterName ∧
      (⟨some "prod", some "worker", some 3, some "arn:app-family:8"⟩ :
        UpdateServiceInput).desiredCount = service.desiredCount ∧
      (⟨some "prod", some "worker", some 3, some "arn:app-family:8"⟩ :
        UpdateServiceInput).taskDefinition = some newArn ∧
      ∃ appName, appName ∈ scenarioFlags.apps ∧
        (⟨some "prod", some "worker", some 3, some "arn:app-family:8"⟩ :
          UpdateServiceInput).service = some appName :=
  update_carries_exemplar_count_and_new_revision scenarioFlags (scenarioControlPlane 2)
    ⟨some "prod", some "worker", some 3, some "arn:app-family:8"⟩ (Reply.ok ()) (by decide)

/-- C5. Once `flag.Parse()` has returned, a run ends at one of the two
validation failures (lines 53 and 58) without any control-plane call if and
only if the cluster is empty, or the region is empty, or the application list
has no element, or the repository is empty, or the tag is empty; in every other
case the first call of the run is `DescribeServices` for `apps[0]` on the
cluster. -/
theorem validation_failure_iff (flags : Flags) (svc : ControlPlane) :
    ((((mainAfterParse flags svc).outcome = fail Failure.missingParameters ∨
          (mainAfterParse flags svc).outcome = fail Failure.noRepoOrSha) ∧
        (mainAfterParse flags svc).trace = []) ↔
      (flags.clusterName = "" ∨ flags.region = "" ∨ flags.apps = [] ∨
        flags.repoName = "" ∨ flags.sha = "")) ∧
    (¬ (flags.clusterName = "" ∨ flags.region = "" ∨ flags.apps = [] ∨
        flags.repoName = "" ∨ flags.sha = "") →
      ∃ exemplar reply, flags.apps[0]? = some exemplar ∧
        (mainAfterParse flags svc).trace[0]? = some (Call.describeServices
          ⟨some flags.clusterName, [exemplar]⟩ reply)) := by
  have hvalid : ¬ (flags.clusterName = "" ∨ flags.region = "" ∨ flags.apps = [] ∨
        flags.repoName = "" ∨ flags.sha = "") →
      ∃ exemplar reply, flags.apps[0]? = some exemplar ∧
        (mainAfterParse flags svc).trace[0]? = some (Call.describeServices
          ⟨some flags.clusterName, [exemplar]⟩ reply) := by
    intro hinv
    simp only [not_or] at hinv
    obtain ⟨hcluster, hregion, hne, hrepo, hsha⟩ := hinv
    obtain ⟨exemplar, rest, happs⟩ := List.exists_cons_of_ne_nil hne
    rcases main_cases flags svc exemplar rest hcluster hregion hrepo hsha happs with
      ⟨r, t, o, hrun, _, _, _⟩ |
      ⟨service, more, clusterArn, td, containerDef, others, registered, newArn, _, _, _, _, _,
        _, _, hrun⟩
    · exact ⟨exemplar, r, by simp [happs], by simp [hrun]⟩
    · exact ⟨exemplar, _, by simp [happs], by rw [hrun]; rfl⟩
  refine ⟨⟨?_, ?_⟩, hvalid⟩
  · rintro ⟨_, htrace⟩
    by_contra hinv
    obtain ⟨exemplar, reply, _, hfirst⟩ := hvalid hinv
    simp [htrace] at hfirst
  · intro hinv
    exact ⟨(main_of_invalid flags svc hinv).2, (main_of_invalid flags svc hinv).1⟩

/-- C9, as stated, fails on the scenario: cell 0 of the heap is the first
container of the fetched task definition; it holds `acme/app:old` before the
store of line 112 and `acme/app:abc123` after it, so the fetched snapshot,
read after the mutated definition has been built, is no longer the one that
was fetched. -/
theorem fetched_snapshot_unchanged_counterexample :
    unmarshal ⟨some scenarioTaskDefinition⟩ =
        ([scenarioContainer], ⟨some (scenarioTaskDefinition.withContainers [some 0])⟩) ∧
      loadOutput [scenarioContainer]
          ⟨some (scenarioTaskDefinition.withContainers [some 0])⟩ =
        ⟨some scenarioTaskDefinition⟩ ∧
      setImage [scenarioContainer] ⟨some (scenarioTaskDefinition.withContainers [some 0])⟩
          ("acme/app" ++ ":" ++ "abc123") =
        Except.ok [{ scenarioContainer with image := some "acme/app:abc123" }] ∧
      loadOutput [{ scenarioContainer with image := some "acme/app:abc123" }]
          ⟨some (scenarioTaskDefinition.withContainers [some 0])⟩ ≠
        ⟨some scenarioTaskDefinition⟩ := by
  refine ⟨rfl, rfl, rfl, ?_⟩
  decide

/-- C9, amended. The store of line 112 is made in place. For every fetched
task definition whose first container is not `null`: the first pointer of
`taskDesc` leads to a cell that holds that container; the store allocates
nothing, puts `repoName ++ ":" ++ sha` into the image of that very cell and
leaves every other cell as it was; so `taskDesc`, which stood for the fetched
document before the store, stands after it for the fetched document with the
image of the first container replaced. The container list of `futureDef` is
the list of pointers of `taskDesc` itself, not a copy of the cells, and the one
definition submitted for registration is `futureDef` read from the heap after
the store. -/
theorem setImage_overwrites_in_place (flags : Flags) (svc : ControlPlane) (service : Service)
    (td : TaskDefinition) (containerDef : ContainerDefinition)
    (others : List (Option ContainerDefinition))
    (hfetch : svc.DescribeTaskDefinition ⟨service.taskDefinition⟩ = Reply.ok ⟨some td⟩)
    (hcontainers : td.containerDefinitions = some containerDef :: others) :
    ∃ heap taskDesc address heapAfter,
      unmarshal ⟨some td⟩ = (heap, ⟨some taskDesc⟩) ∧
      taskDesc.containerDefinitions[0]? = some (some address) ∧
      heap[address]? = some containerDef ∧
      setImage heap ⟨some taskDesc⟩ (flags.repoName ++ ":" ++ flags.sha) =
        Except.ok heapAfter ∧
      heapAfter.length = heap.length ∧
      heapAfter[address]? =
        some { containerDef with image := some (flags.repoName ++ ":" ++ flags.sha) } ∧
      (∀ a, a ≠ address → heapAfter[a]? = heap[a]?) ∧
      loadTaskDefinition heap taskDesc = td ∧
      loadTaskDefinition heapAfter taskDesc =
        { td with containerDefinitions := (some { containerDef with
          image := some (flags.repoName ++ ":" ++ flags.sha) } :: others) } ∧
      (futureDef taskDesc).containerDefinitions = taskDesc.containerDefinitions ∧
      registerCalls (fetchAndDeploy flags svc service).trace =
        [loadInput heapAfter (futureDef taskDesc)] := by
  have hset := setImage_cons td containerDef others (flags.repoName ++ ":" ++ flags.sha)
    hcontainers
  rw [unmarshal_cons td containerDef others hcontainers] at hset
  refine ⟨containerDef :: others.reduceOption,
    td.withContainers (some 0 :: (allocate others [containerDef]).2), 0,
    { containerDef with image := some (flags.repoName ++ ":" ++ flags.sha) } ::
      others.reduceOption,
    unmarshal_cons td containerDef others hcontainers, by simp [TaskDefinitionOf.withContainers],
    by simp, hset, by simp, by simp, ?_,
    loadTaskDefinition_before td containerDef others hcontainers,
    loadTaskDefinition_after td containerDef others _, rfl, ?_⟩
  · intro a ha
    obtain ⟨b, rfl⟩ := Nat.exists_eq_succ_of_ne_zero ha
    simp
  · rw [fetchAndDeploy_of_fetched flags svc service td containerDef others hfetch hcontainers,
      loadInput_after]
    simp [registerCalls, (registerCalls_registerAndUpdate flags svc service _).1]

/-- In the scenario cell 0 holds `acme/app:abc123` after line 112, and the
definition submitted is read from that cell. -/
theorem setImage_overwrites_in_place_witness :
    ∃ heap taskDesc address heapAfter,
      unmarshal ⟨some scenarioTaskDefinition⟩ = (heap, ⟨some taskDesc⟩) ∧
      taskDesc.containerDefinitions[0]? = some (some address) ∧
      heap[address]? = some scenarioContainer ∧
      setImage heap ⟨some taskDesc⟩ (scenarioFlags.repoName ++ ":" ++ scenarioFlags.sha) =
        Except.ok heapAfter ∧
      heapAfter.length = heap.length ∧
      heapAfter[address]? = some { scenarioContainer with
        image := some (scenarioFlags.repoName ++ ":" ++ scenarioFlags.sha) } ∧
      (∀ a, a ≠ address → heapAfter[a]? = heap[a]?) ∧
      loadTaskDefinition heap taskDesc = scenarioTaskDefinition ∧
      loadTaskDefinition heapAfter taskDesc =
        { scenarioTaskDefinition with containerDefinitions := (some { scenarioContainer with
          image := some (scenarioFlags.repoName ++ ":" ++ scenarioFlags.sha) } :: []) } ∧
      (futureDef taskDesc).containerDefinitions = taskDesc.containerDefinitions ∧
      registerCalls (fetchAndDeploy scenarioFlags (scenarioControlPlane 2)
        (scenarioService "web")).trace = [loadInput heapAfter (futureDef taskDesc)] :=
  setImage_overwrites_in_place scenarioFlags (scenarioControlPlane 2) (scenarioService "web")
    scenarioTaskDefinition scenarioContainer [] rfl rfl

/-- C10, as stated, fails on the argument `-h`: `flag.Parse()` prints the usage
and exits with status 0, before validation and without any control-plane call. -/
theorem exit_code_zero_on_help_counterexample :
    (main ["-h"] (scenarioControlPlane 2)).outcome = Outcome.exitInParse 0 ∧
      (main ["-h"] (scenarioControlPlane 2)).outcome.exitCode = 0 ∧
      (main ["-h"] (scenarioControlPlane 2)).trace = [] ∧
      (registerCalls (main ["-h"] (scenarioControlPlane 2)).trace).length ≠ 1 := by
  decide

/-- C10, amended. A run given `-h` or `-help` ends inside `flag.Parse()` with
status 0 and no call; a run with an argument error ends there with status 2 and
no call. When `flag.Parse()` returns, the exit status is 0 if and only if
validation passed, the lookup succeeded with a first descriptor carrying the
name `apps[0]`, one `DescribeTaskDefinition` call, one `RegisterTaskDefinition`
call and one `UpdateService` call per application were issued, and every call
of the run succeeded. The exit status of every run is 0 or 2. -/
theorem exit_code_zero_iff_full_success (args : List String) (svc : ControlPlane) :
    (flagParse args = ParseResult.help →
      (main args svc).outcome.exitCode = 0 ∧ (main args svc).trace = []) ∧
    (flagParse args = ParseResult.failed →
      (main args svc).outcome.exitCode = 2 ∧ (main args svc).trace = []) ∧
    (∀ flags, flagParse args = ParseResult.parsed flags →
      ((main args svc).outcome.exitCode = 0 ↔
        (flags.clusterName ≠ "" ∧ flags.region ≠ "" ∧ flags.apps ≠ [] ∧
          flags.repoName ≠ "" ∧ flags.sha ≠ "") ∧
        (∃ input service more, (main args svc).trace[0]? =
            some (Call.describeServices input (Reply.ok ⟨some service :: more⟩)) ∧
          service.serviceName = flags.apps[0]?) ∧
        (describeTaskDefinitionCalls (main args svc).trace).length = 1 ∧
        (registerCalls (main args svc).trace).length = 1 ∧
        (updateCalls (main args svc).trace).length = flags.apps.length ∧
        ∀ c ∈ (main args svc).trace, c.succeeded = true)) ∧
    ((main args svc).outcome.exitCode = 0 ∨ (main args svc).outcome.exitCode = 2) := by
  cases hparse : flagParse args with
  | help => simp [main, hparse, Outcome.exitCode]
  | failed => simp [main, hparse, Outcome.exitCode]
  | parsed flags =>
    have hmain := main_of_parsed args svc flags hparse
    refine ⟨by simp, by simp, ?_, ?_⟩
    · intro other hother
      cases hother
      rw [hmain]
      exact (mainAfterParse_exit_code flags svc).1
    · rw [hmain]
      exact (mainAfterParse_exit_code flags svc).2

/-- On the arguments of the scenario the equivalence of the amended C10 holds
with both sides true when every update succeeds, and with both sides false when
the update of worker fails. -/
theorem exit_code_zero_iff_full_success_witness :
    ((main scenarioArgs (scenarioControlPlane 2)).outcome.exitCode = 0 ∧
      (updateCalls (main scenarioArgs (scenarioControlPlane 2)).trace).length =
        scenarioFlags.apps.length ∧
      ∀ c ∈ (main scenarioArgs (scenarioControlPlane 2)).trace, c.succeeded = true) ∧
    ((main scenarioArgs (scenarioControlPlane 1)).outcome.exitCode = 2 ∧
      ¬ ∀ c ∈ (main scenarioArgs (scenarioControlPlane 1)).trace, c.succeeded = true) :=
  have hok := ((exit_code_zero_iff_full_success scenarioArgs (scenarioControlPlane 2)).2.2.1
    scenarioFlags rfl).mp (by decide)
  have hfail := (exit_code_zero_iff_full_success scenarioArgs (scenarioControlPlane 1)).2.2.1
    scenarioFlags rfl
  ⟨⟨by decide, hok.2.2.2.2.1, hok.2.2.2.2.2⟩,
    ⟨by decide, fun hall => absurd (hfail.mpr ⟨by decide,
      ⟨⟨some "prod", ["web"]⟩, scenarioService "web", [], by decide, by decide⟩,
      by decide, by decide, by decide, hall⟩) (by decide)⟩⟩

/-- The scenario passes validation: its first call is the lookup of web on prod. -/
theorem validation_failure_iff_witness :
    ((((mainAfterParse scenarioFlags (scenarioControlPlane 2)).outcome =
            fail Failure.missingParameters ∨
          (mainAfterParse scenarioFlags (scenarioControlPlane 2)).outcome =
            fail Failure.noRepoOrSha) ∧
        (mainAfterParse scenarioFlags (scenarioControlPlane 2)).trace = []) ↔
      (scenarioFlags.clusterName = "" ∨ scenarioFlags.region = "" ∨ scenarioFlags.apps = [] ∨
        scenarioFlags.repoName = "" ∨ scenarioFlags.sha = "")) ∧
    (¬ (scenarioFlags.clusterName = "" ∨ scenarioFlags.region = "" ∨ scenarioFlags.apps = [] ∨
        scenarioFlags.repoName = "" ∨ scenarioFlags.sha = "") →
      ∃ exemplar reply, scenarioFlags.apps[0]? = some exemplar ∧
        (mainAfterParse scenarioFlags (scenarioControlPlane 2)).trace[0]? =
          some (Call.describeServices ⟨some scenarioFlags.clusterName, [exemplar]⟩ reply)) :=
  validation_failure_iff scenarioFlags (scenarioControlPlane 2)

end EcsDeployer
